import Mathlib

/-!
Verification of the `max_api` typed access layer (`src/models.py`, `src/api.py`):
a shallow embedding of the entity codec (dataclass `from_dict` / `to_dict`
methods) and of the request executor (`MaxBotAPI._request` and friends),
together with theorems settling the specified properties.

Python values appearing in JSON-shaped data are modelled by the `Json`
inductive below.  Python `dict`s are modelled as insertion-ordered association
lists (`PyDict`); the lookup/assignment helpers mirror `d[k]`, `d.get(k)`,
`d[k] = v` and `d.setdefault(k, v)`.  Python `int` and `float` are merged into
one exact-rational constructor `jnum num den` kept in canonical reduced form
(Python's `==` identifies `1` and `1.0`; the source never does arithmetic on
these values, only passes them through, so a canonical pair of integers is a
faithful model: `1.5` is `jnum 3 2`, `0`/`0.0` is `jnum 0 1`).
-/

/-- A Python value as it occurs in JSON-shaped data: `None`, `bool`, numbers
(`int`/`float` merged, see module docstring), `str`, `list`, `dict`. -/
inductive Json where
  | jnull : Json
  | jbool : Bool → Json
  | jnum : Int → Nat → Json
  | jstr : String → Json
  | jarr : List Json → Json
  | jobj : List (String × Json) → Json
  deriving Repr

mutual
/-- Equality of `Json` values is decidable (manual instance: `deriving` does
not handle the nesting through `List`). -/
def Json.decEq : (a b : Json) → Decidable (a = b)
  | .jnull, .jnull => isTrue rfl
  | .jbool x, .jbool y =>
    if h : x = y then isTrue (by rw [h]) else isFalse (fun he => h (by injection he))
  | .jnum x1 x2, .jnum y1 y2 =>
    if h : x1 = y1 ∧ x2 = y2 then isTrue (by rw [h.1, h.2])
    else isFalse (fun he => h (by injection he; exact ⟨by assumption, by assumption⟩))
  | .jstr x, .jstr y =>
    if h : x = y then isTrue (by rw [h]) else isFalse (fun he => h (by injection he))
  | .jarr xs, .jarr ys =>
    match Json.decEqArr xs ys with
    | isTrue h => isTrue (by rw [h])
    | isFalse h => isFalse (fun he => h (by injection he))
  | .jobj xs, .jobj ys =>
    match Json.decEqObj xs ys with
    | isTrue h => isTrue (by rw [h])
    | isFalse h => isFalse (fun he => h (by injection he))
  | .jnull, .jbool _ => isFalse nofun
  | .jnull, .jnum _ _ => isFalse nofun
  | .jnull, .jstr _ => isFalse nofun
  | .jnull, .jarr _ => isFalse nofun
  | .jnull, .jobj _ => isFalse nofun
  | .jbool _, .jnull => isFalse nofun
  | .jbool _, .jnum _ _ => isFalse nofun
  | .jbool _, .jstr _ => isFalse nofun
  | .jbool _, .jarr _ => isFalse nofun
  | .jbool _, .jobj _ => isFalse nofun
  | .jnum _ _, .jnull => isFalse nofun
  | .jnum _ _, .jbool _ => isFalse nofun
  | .jnum _ _, .jstr _ => isFalse nofun
  | .jnum _ _, .jarr _ => isFalse nofun
  | .jnum _ _, .jobj _ => isFalse nofun
  | .jstr _, .jnull => isFalse nofun
  | .jstr _, .jbool _ => isFalse nofun
  | .jstr _, .jnum _ _ => isFalse nofun
  | .jstr _, .jarr _ => isFalse nofun
  | .jstr _, .jobj _ => isFalse nofun
  | .jarr _, .jnull => isFalse nofun
  | .jarr _, .jbool _ => isFalse nofun
  | .jarr _, .jnum _ _ => isFalse nofun
  | .jarr _, .jstr _ => isFalse nofun
  | .jarr _, .jobj _ => isFalse nofun
  | .jobj _, .jnull => isFalse nofun
  | .jobj _, .jbool _ => isFalse nofun
  | .jobj _, .jnum _ _ => isFalse nofun
  | .jobj _, .jstr _ => isFalse nofun
  | .jobj _, .jarr _ => isFalse nofun

/-- Auxiliary decidable equality on lists of `Json`. -/
def Json.decEqArr : (a b : List Json) → Decidable (a = b)
  | [], [] => isTrue rfl
  | [], _ :: _ => isFalse nofun
  | _ :: _, [] => isFalse nofun
  | x :: xs, y :: ys =>
    match Json.decEq x y, Json.decEqArr xs ys with
    | isTrue h1, isTrue h2 => isTrue (by rw [h1, h2])
    | isFalse h1, _ => isFalse (fun he => h1 (by injection he))
    | isTrue _, isFalse h2 => isFalse (fun he => h2 (by injection he))

/-- Auxiliary decidable equality on string-keyed entry lists. -/
def Json.decEqObj : (a b : List (String × Json)) → Decidable (a = b)
  | [], [] => isTrue rfl
  | [], _ :: _ => isFalse nofun
  | _ :: _, [] => isFalse nofun
  | (k1, v1) :: xs, (k2, v2) :: ys =>
    if hk : k1 = k2 then
      match Json.decEq v1 v2, Json.decEqObj xs ys with
      | isTrue h1, isTrue h2 => isTrue (by rw [hk, h1, h2])
      | isFalse h1, _ =>
        isFalse (fun he => h1 (by injection he with h h'; injection h with h1 h2))
      | isTrue _, isFalse h2 => isFalse (fun he => h2 (by injection he))
    else isFalse (fun he => hk (by injection he with h h'; injection h with h1 h2))
end

instance : DecidableEq Json := Json.decEq

/-- A Python `dict` with string keys: an insertion-ordered association list
(Python dicts never hold duplicate keys; all operations below use first-match
semantics, which agrees with Python on duplicate-free lists). -/
abbrev PyDict := List (String × Json)

/-- Python `d.get(k)` as an `Option`: first entry with the given key. -/
def dget : PyDict → String → Option Json
  | [], _ => none
  | (k', v) :: rest, k => if k' = k then some v else dget rest k

/-- Python `d.get(k, default)`. -/
def dgetD (d : PyDict) (k : String) (v : Json) : Json :=
  (dget d k).getD v

/-- Python `d[k] = v`: replace the value of an existing key in place,
otherwise append the new entry at the end. -/
def dset : PyDict → String → Json → PyDict
  | [], k, v => [(k, v)]
  | (k', v') :: rest, k, v =>
    if k' = k then (k', v) :: rest else (k', v') :: dset rest k v

/-- Python `d.setdefault(k, v)`: insert only when the key is absent. -/
def dsetdefault (d : PyDict) (k : String) (v : Json) : PyDict :=
  match dget d k with
  | some _ => d
  | none => d ++ [(k, v)]

/-- Python `d.update(kvs)`: assign every entry of `kvs` into `d` in order. -/
def pyUpdate (d : PyDict) (kvs : PyDict) : PyDict :=
  kvs.foldl (fun acc kv => dset acc kv.1 kv.2) d

/-- Python truthiness of a value (`if x:`, `x or y`). -/
def pyTruthy : Json → Bool
  | .jnull => false
  | .jbool b => b
  | .jnum n _ => n != 0
  | .jstr s => s ≠ ""
  | .jarr xs => !xs.isEmpty
  | .jobj fs => !fs.isEmpty

/-- The exceptions the decoders (`from_dict` methods) can raise. -/
inductive DecodeErr where
  | keyError : String → DecodeErr
  | typeError : String → DecodeErr
  | attributeError : String → DecodeErr
  deriving DecidableEq, Repr

/-- Python iteration over a value (`list(x)`, `for a in x`): lists yield their
elements, strings their characters, dicts their keys; other values raise
`TypeError`. -/
def pyIter : Json → Except DecodeErr (List Json)
  | .jarr xs => .ok xs
  | .jstr s => .ok (s.data.map fun c => .jstr (String.mk [c]))
  | .jobj fs => .ok (fs.map fun kv => .jstr kv.1)
  | _ => .error (.typeError "object is not iterable")

/-- Subscripting / `.get` on a value that must be a mapping; non-mapping
values raise (`TypeError`/`AttributeError` in Python — the exact class is
irrelevant to every claim, `attributeError` is used uniformly). -/
def asObj : Json → Except DecodeErr PyDict
  | .jobj fs => .ok fs
  | _ => .error (.attributeError "value is not a mapping")

/-- Python `data[k]` on a mapping: `KeyError` when absent. -/
def req (d : PyDict) (k : String) : Except DecodeErr Json :=
  match dget d k with
  | some v => .ok v
  | none => .error (.keyError k)

/-- Python `data.get(k)`: `None` when absent. -/
def optGet (d : PyDict) (k : String) : Json :=
  dgetD d k .jnull

/-- Element-wise decoding of a list (a Python list comprehension
`[f(a) for a in xs]` over a fallible `f`): stops at the first exception. -/
def decodeList (f : Json → Except DecodeErr α) : List Json → Except DecodeErr (List α)
  | [] => .ok []
  | x :: xs => do
    let a ← f x
    let rest ← decodeList f xs
    .ok (a :: rest)

/-! ## Entity models (`src/models.py`)

Python dataclass field annotations are not enforced at runtime: `from_dict`
stores whatever value the input dictionary holds.  Fields are therefore
modelled as `Json` (with `.jnull` for Python `None`), except where the source
itself guarantees more structure (nested decoded entities, `Option` for
fields the source sets to `None` or to a decoded object). -/

/-- `models.User` (dataclass fields, in source order). -/
structure User where
  user_id : Json
  first_name : Json
  last_name : Json
  username : Json
  is_bot : Json
  last_activity_time : Json
  name : Json
  deriving DecidableEq, Repr

/-- `User.from_dict`. -/
def User.from_dict (j : Json) : Except DecodeErr User := do
  let d ← asObj j
  let uid ← req d "user_id"
  let fn ← req d "first_name"
  let ib ← req d "is_bot"
  let lat ← req d "last_activity_time"
  pure { user_id := uid, first_name := fn, last_name := optGet d "last_name",
         username := optGet d "username", is_bot := ib, last_activity_time := lat,
         name := optGet d "name" }

/-- `User.to_dict`. -/
def User.to_dict (u : User) : PyDict :=
  [("user_id", u.user_id), ("first_name", u.first_name), ("last_name", u.last_name),
   ("username", u.username), ("is_bot", u.is_bot),
   ("last_activity_time", u.last_activity_time), ("name", u.name)]

/-- `models.UserWithPhoto` (extends `User`). -/
structure UserWithPhoto extends User where
  description : Json
  avatar_url : Json
  full_avatar_url : Json
  deriving DecidableEq, Repr

/-- `UserWithPhoto.from_dict`: decodes the `User` part first
(`base = User.from_dict(data)`), then attaches the extension fields
(`cls(**base.to_dict(), description=..., ...)` — unpacking `base.to_dict()`
reinstates exactly the base fields). -/
def UserWithPhoto.from_dict (j : Json) : Except DecodeErr UserWithPhoto := do
  let base ← User.from_dict j
  let d ← asObj j
  pure { toUser := base, description := optGet d "description",
         avatar_url := optGet d "avatar_url",
         full_avatar_url := optGet d "full_avatar_url" }

/-- `UserWithPhoto.to_dict`: `super().to_dict()` then `d.update({...})`
(the three extension keys are fresh, so the update appends them). -/
def UserWithPhoto.to_dict (u : UserWithPhoto) : PyDict :=
  pyUpdate u.toUser.to_dict
    [("description", u.description), ("avatar_url", u.avatar_url),
     ("full_avatar_url", u.full_avatar_url)]

/-- `models.Recipient`. -/
structure Recipient where
  chat_id : Json
  chat_type : Json
  user_id : Json
  deriving DecidableEq, Repr

/-- `Recipient.from_dict`. -/
def Recipient.from_dict (j : Json) : Except DecodeErr Recipient := do
  let d ← asObj j
  let ct ← req d "chat_type"
  pure { chat_id := optGet d "chat_id", chat_type := ct, user_id := optGet d "user_id" }

/-- `Recipient.to_dict`. -/
def Recipient.to_dict (r : Recipient) : PyDict :=
  [("chat_id", r.chat_id), ("chat_type", r.chat_type), ("user_id", r.user_id)]

/-- `models.Attachment` and its subclass `models.LocationAttachment`: a value
of either class.  `base` carries the `Attachment` fields (`type`, `payload`,
with `.jnull` for `None`); `location` additionally carries
`latitude`/`longitude`.  A `LocationAttachment`'s `payload` is `None` or a
dict in every execution the claims reach, so it is typed `Option PyDict`
(its `to_dict` would raise in Python on any other value). -/
inductive Attachment where
  | base (type : Json) (payload : Json)
  | location (type : Json) (payload : Option PyDict) (latitude longitude : Json)
  deriving DecidableEq, Repr

/-- Whether a value is an instance of exactly the base class `Attachment`
(Python dataclass equality distinguishes the two classes). -/
def Attachment.isBase : Attachment → Bool
  | .base _ _ => true
  | .location _ _ _ _ => false

/-- `Attachment.from_dict`: `cls(type=data["type"], payload=data.get("payload"))`.
Always constructs the base class — there is no dispatch on `type`. -/
def Attachment.from_dict (j : Json) : Except DecodeErr Attachment := do
  let d ← asObj j
  let t ← req d "type"
  pure (.base t (optGet d "payload"))

/-- `LocationAttachment.from_dict`: `payload = data.get("payload") or {}`,
then `cls(type=data["type"], payload=payload,
latitude=payload.get("latitude", 0.0), longitude=payload.get("longitude", 0.0))`.
Evaluation order as in Python: `data["type"]` is read before `payload.get`
is attempted, so a missing `type` raises first. -/
def LocationAttachment.from_dict (j : Json) : Except DecodeErr Attachment := do
  let d ← asObj j
  let praw := optGet d "payload"
  let pv := if pyTruthy praw then praw else .jobj []
  let t ← req d "type"
  let pfs ← asObj pv
  pure (.location t (some pfs) (dgetD pfs "latitude" (.jnum 0 1))
        (dgetD pfs "longitude" (.jnum 0 1)))

/-- `to_dict`, dispatched on the dynamic class as Python method calls are.
Base: `{"type": ...}` plus `payload` only when it is not `None`.
Location: `payload = dict(self.payload or {})`, then writes `latitude` and
`longitude` into it and returns `{"type": ..., "payload": payload}`. -/
def Attachment.to_dict : Attachment → PyDict
  | .base t p => if p = .jnull then [("type", t)] else [("type", t), ("payload", p)]
  | .location t p lat lng =>
    let fs := p.getD []
    let fs := dset (dset fs "latitude" lat) "longitude" lng
    [("type", t), ("payload", .jobj fs)]

/-- `models.MessageStat`. -/
structure MessageStat where
  views : Json
  deriving DecidableEq, Repr

/-- `MessageStat.from_dict`. -/
def MessageStat.from_dict (j : Json) : Except DecodeErr MessageStat := do
  let d ← asObj j
  let v ← req d "views"
  pure { views := v }

/-- `MessageStat.to_dict`. -/
def MessageStat.to_dict (s : MessageStat) : PyDict :=
  [("views", s.views)]

/-- `models.MessageBody`. -/
structure MessageBody where
  mid : Json
  seq : Json
  text : Json
  attachments : List Attachment
  markup : Json
  deriving DecidableEq, Repr

/-- `MessageBody.from_dict`: `attachments_raw = data.get("attachments") or []`,
then `[Attachment.from_dict(a) for a in attachments_raw]` (the BASE decoder,
called explicitly on the class — no variant dispatch), evaluated before the
required `mid`/`seq` lookups, as in the source. -/
def MessageBody.from_dict (j : Json) : Except DecodeErr MessageBody := do
  let d ← asObj j
  let araw := optGet d "attachments"
  let ar := if pyTruthy araw then araw else .jarr []
  let elems ← pyIter ar
  let atts ← decodeList Attachment.from_dict elems
  let mid ← req d "mid"
  let seq ← req d "seq"
  pure { mid := mid, seq := seq, text := optGet d "text", attachments := atts,
         markup := optGet d "markup" }

/-- `MessageBody.to_dict`. -/
def MessageBody.to_dict (b : MessageBody) : PyDict :=
  [("mid", b.mid), ("seq", b.seq), ("text", b.text),
   ("attachments", .jarr (b.attachments.map fun a => .jobj a.to_dict)),
   ("markup", b.markup)]

/-- `models.LinkedMessage`. -/
structure LinkedMessage where
  type : Json
  sender : Option User
  chat_id : Json
  message : MessageBody
  deriving DecidableEq, Repr

/-- `LinkedMessage.from_dict`: `sender` is decoded only when the raw value is
a mapping (`isinstance(sender_raw, Mapping)`), before the required fields are
read, as in the source. -/
def LinkedMessage.from_dict (j : Json) : Except DecodeErr LinkedMessage := do
  let d ← asObj j
  let sender ← match optGet d "sender" with
    | .jobj fs => do pure (some (← User.from_dict (.jobj fs)))
    | _ => pure none
  let t ← req d "type"
  let cid ← req d "chat_id"
  let msgRaw ← req d "message"
  let msg ← MessageBody.from_dict msgRaw
  pure { type := t, sender := sender, chat_id := cid, message := msg }

/-- `LinkedMessage.to_dict` (`self.sender.to_dict() if self.sender else None`;
an object is always truthy, `None` is falsy). -/
def LinkedMessage.to_dict (l : LinkedMessage) : PyDict :=
  [("type", l.type),
   ("sender", match l.sender with | some u => .jobj u.to_dict | none => .jnull),
   ("chat_id", l.chat_id), ("message", .jobj l.message.to_dict)]

/-- `models.Message`. -/
structure Message where
  recipient : Recipient
  body : MessageBody
  timestamp : Json
  sender : Option User
  link : Option LinkedMessage
  stat : Option MessageStat
  url : Json
  deriving DecidableEq, Repr

/-- `Message.from_dict`: the optional `sender`/`link`/`stat` are decoded first
(each only when the raw value is a mapping), then the required
`recipient`/`body`/`timestamp`, as in the source. -/
def Message.from_dict (j : Json) : Except DecodeErr Message := do
  let d ← asObj j
  let sender ← match optGet d "sender" with
    | .jobj fs => do pure (some (← User.from_dict (.jobj fs)))
    | _ => pure none
  let lnk ← match optGet d "link" with
    | .jobj fs => do pure (some (← LinkedMessage.from_dict (.jobj fs)))
    | _ => pure none
  let stat ← match optGet d "stat" with
    | .jobj fs => do pure (some (← MessageStat.from_dict (.jobj fs)))
    | _ => pure none
  let recRaw ← req d "recipient"
  let recp ← Recipient.from_dict recRaw
  let bodyRaw ← req d "body"
  let body ← MessageBody.from_dict bodyRaw
  let ts ← req d "timestamp"
  pure { recipient := recp, body := body, timestamp := ts, sender := sender,
         link := lnk, stat := stat, url := optGet d "url" }

/-- `Message.to_dict` (key order as in the source). -/
def Message.to_dict (m : Message) : PyDict :=
  [("sender", match m.sender with | some u => .jobj u.to_dict | none => .jnull),
   ("recipient", .jobj m.recipient.to_dict), ("timestamp", m.timestamp),
   ("link", match m.link with | some l => .jobj l.to_dict | none => .jnull),
   ("body", .jobj m.body.to_dict),
   ("stat", match m.stat with | some s => .jobj s.to_dict | none => .jnull),
   ("url", m.url)]

/-- `models.Chat`. -/
structure Chat where
  chat_id : Json
  type : Json
  status : Json
  title : Json
  last_event_time : Json
  participants_count : Json
  icon : Json
  is_public : Json
  description : Json
  owner_id : Json
  participants : Option PyDict
  link : Json
  dialog_with_user : Option UserWithPhoto
  chat_message_id : Json
  pinned_message : Option Message
  deriving DecidableEq, Repr

/-- `Chat.from_dict`: `participants` stays `None` if absent or `None`,
otherwise is copied with `dict(...)` (Python's `dict` would also accept an
iterable of pairs, which no caller and no claim exercises; such values are
modelled as a `TypeError`).  `dialog_with_user`/`pinned_message` are decoded
only when the raw value is a mapping.  Decode order as in the source. -/
def Chat.from_dict (j : Json) : Except DecodeErr Chat := do
  let d ← asObj j
  let participants ← match dget d "participants" with
    | none => pure (none : Option PyDict)
    | some .jnull => pure none
    | some (.jobj fs) => pure (some fs)
    | some _ => Except.error (.typeError "not a mapping of participants")
  let dialog ← match optGet d "dialog_with_user" with
    | .jobj fs => do pure (some (← UserWithPhoto.from_dict (.jobj fs)))
    | _ => pure none
  let pinned ← match optGet d "pinned_message" with
    | .jobj fs => do pure (some (← Message.from_dict (.jobj fs)))
    | _ => pure none
  let cid ← req d "chat_id"
  let t ← req d "type"
  let st ← req d "status"
  let lev ← req d "last_event_time"
  let pc ← req d "participants_count"
  let ip ← req d "is_public"
  pure { chat_id := cid, type := t, status := st, title := optGet d "title",
         last_event_time := lev, participants_count := pc, icon := optGet d "icon",
         is_public := ip, description := optGet d "description",
         owner_id := optGet d "owner_id", participants := participants,
         link := optGet d "link", dialog_with_user := dialog,
         chat_message_id := optGet d "chat_message_id", pinned_message := pinned }

/-- `Chat.to_dict`. -/
def Chat.to_dict (c : Chat) : PyDict :=
  [("chat_id", c.chat_id), ("type", c.type), ("status", c.status),
   ("title", c.title), ("last_event_time", c.last_event_time),
   ("participants_count", c.participants_count), ("icon", c.icon),
   ("is_public", c.is_public), ("description", c.description),
   ("owner_id", c.owner_id),
   ("participants", match c.participants with | some fs => .jobj fs | none => .jnull),
   ("link", c.link),
   ("dialog_with_user",
     match c.dialog_with_user with | some u => .jobj u.to_dict | none => .jnull),
   ("chat_message_id", c.chat_message_id),
   ("pinned_message",
     match c.pinned_message with | some m => .jobj m.to_dict | none => .jnull)]

/-- `models.ChatMember` (extends `UserWithPhoto`). -/
structure ChatMember extends UserWithPhoto where
  last_access_time : Json
  is_owner : Json
  is_admin : Json
  join_time : Json
  permissions : Option (List Json)
  deriving DecidableEq, Repr

/-- `ChatMember.from_dict`: decodes the `UserWithPhoto` part first, then the
member fields; `permissions` is
`list(data["permissions"]) if data.get("permissions") is not None else None`. -/
def ChatMember.from_dict (j : Json) : Except DecodeErr ChatMember := do
  let base ← UserWithPhoto.from_dict j
  let d ← asObj j
  let lat ← req d "last_access_time"
  let io ← req d "is_owner"
  let ia ← req d "is_admin"
  let jt ← req d "join_time"
  let perms ← match dget d "permissions" with
    | none => pure (none : Option (List Json))
    | some .jnull => pure none
    | some v => do pure (some (← pyIter v))
  pure { toUserWithPhoto := base, last_access_time := lat, is_owner := io,
         is_admin := ia, join_time := jt, permissions := perms }

/-- `ChatMember.to_dict`: `super().to_dict()` then `d.update({...})`
(all five member keys are fresh, so the update appends them). -/
def ChatMember.to_dict (m : ChatMember) : PyDict :=
  pyUpdate m.toUserWithPhoto.to_dict
    [("last_access_time", m.last_access_time), ("is_owner", m.is_owner),
     ("is_admin", m.is_admin), ("join_time", m.join_time),
     ("permissions", match m.permissions with | some l => .jarr l | none => .jnull)]

/-- `models.ChatAdmin`. -/
structure ChatAdmin where
  user_id : Json
  permissions : List Json
  deriving DecidableEq, Repr

/-- `ChatAdmin.from_dict`:
`permissions=list(data.get("permissions") or [])`. -/
def ChatAdmin.from_dict (j : Json) : Except DecodeErr ChatAdmin := do
  let d ← asObj j
  let uid ← req d "user_id"
  let praw := optGet d "permissions"
  let pv := if pyTruthy praw then praw else .jarr []
  let perms ← pyIter pv
  pure { user_id := uid, permissions := perms }

/-- `ChatAdmin.to_dict`. -/
def ChatAdmin.to_dict (a : ChatAdmin) : PyDict :=
  [("user_id", a.user_id), ("permissions", .jarr a.permissions)]

/-- `models.Update`: `update_type`, `timestamp`, and every other input field
passed through in `payload`. -/
structure Update where
  update_type : Json
  timestamp : Json
  payload : PyDict
  deriving DecidableEq, Repr

/-- `Update.from_dict`: reads the two required fields, then
`payload = {k: v for k, v in data.items() if k not in ("update_type", "timestamp")}`. -/
def Update.from_dict (j : Json) : Except DecodeErr Update := do
  let d ← asObj j
  let ut ← req d "update_type"
  let ts ← req d "timestamp"
  pure { update_type := ut, timestamp := ts,
         payload := d.filter fun kv => kv.1 != "update_type" && kv.1 != "timestamp" }

/-- `Update.to_dict`: `data = dict(self.payload)`, then
`data["update_type"] = ...; data["timestamp"] = ...` (dict-assignment
semantics: replace in place or append). -/
def Update.to_dict (u : Update) : PyDict :=
  dset (dset u.payload "update_type" u.update_type) "timestamp" u.timestamp

/-! ## Client and request executor (`src/api.py`) -/

/-- `api.MaxAPIError`: `status_code`, optional `error_code`/`message`
(as decoded values, `.jnull` for `None`), optional `details` mapping. -/
structure MaxAPIError where
  status_code : Nat
  error_code : Json
  message : Json
  details : Option PyDict
  deriving DecidableEq, Repr

/-- Python `s.rstrip("/")`: remove every trailing `'/'`. -/
def pyRstripSlash (s : String) : String :=
  String.mk ((s.data.reverse.dropWhile fun c => c == '/').reverse)

/-- Whether a path starts with `'/'` (Python `path.startswith("/")`). -/
def startsWithSlash (p : String) : Bool :=
  match p.data with
  | c :: _ => c = '/'
  | [] => false

/-- The state a `MaxBotAPI` instance carries (`__init__`): token, base URL
(stored right-stripped of `'/'`), default timeout (seconds; `Option` for
`None`), and the `use_models` flag.  The timeout never participates in
arithmetic, so its value is kept as `Json`. -/
structure Client where
  access_token : String
  base_url : String
  timeout : Option Json
  use_models : Bool
  deriving DecidableEq, Repr

/-- `MaxBotAPI.__init__`: `self._base_url = base_url.rstrip("/")`. -/
def mkClient (access_token base_url : String) (timeout : Option Json)
    (use_models : Bool) : Client :=
  { access_token := access_token, base_url := pyRstripSlash base_url,
    timeout := timeout, use_models := use_models }

namespace MaxBotAPI

/-- `MaxBotAPI._build_url`: prepend `'/'` to the path unless it already starts
with one, then concatenate onto the stored base URL. -/
def build_url (c : Client) (path : String) : String :=
  if startsWithSlash path then c.base_url ++ path else c.base_url ++ "/" ++ path

/-- `MaxBotAPI._should_use_models`. -/
def should_use_models (c : Client) (as_models : Option Bool) : Bool :=
  match as_models with
  | none => c.use_models
  | some b => b

end MaxBotAPI

/-- What the transport collaborator (`requests`) hands back for one call:
status code, `Content-Type` header, the JSON parse of the body
(`none` models `resp.json()` raising `ValueError`; note that a body of
literal JSON `null` parses to Python `None`, i.e. `some .jnull`), and the
raw body text. -/
structure HttpResponse where
  status : Nat
  contentType : String
  jsonBody : Option Json
  text : String
  deriving DecidableEq, Repr

/-- `requests.Response.ok`: `False` exactly for status codes 400–599. -/
def respOk (status : Nat) : Bool :=
  !(400 ≤ status && status < 600)

/-- Python `"application/json" in content_type`: substring test. -/
def hasJsonCT (contentType : String) : Bool :=
  decide ("application/json".data <:+: contentType.data)

/-- Lines 213–222 of `api.py`: `data = resp.json()` when the content type
contains `application/json` (with `ValueError` mapped to `None`), else
`data = None`.  Python `None` is `.jnull`. -/
def parsedData (resp : HttpResponse) : Json :=
  if hasJsonCT resp.contentType then
    match resp.jsonBody with
    | some j => j
    | none => .jnull
  else .jnull

/-- The request a call hands to the transport collaborator
(`self._session.request(...)` arguments). -/
structure SentRequest where
  method : String
  url : String
  query : PyDict
  body : Option Json
  timeout : Option Json
  deriving DecidableEq, Repr

/-- What `_request` returns on success: the parsed JSON value (`data`) or the
raw response text when no (non-null) JSON value was parsed. -/
inductive ReqOutcome where
  | data (j : Json)
  | text (t : String)
  deriving DecidableEq, Repr

namespace MaxBotAPI

/-- `MaxBotAPI._request`, given the transport's response: returns the request
actually sent plus the outcome (`MaxAPIError` for a non-ok status).  The query
is `{}` updated with the caller's params (`if params: query.update(params)` —
skipping a falsy/absent `params` equals updating from an empty dict), then
`query.setdefault("access_token", self._access_token)`. -/
def request (c : Client) (method path : String) (params : Option PyDict)
    (json_body : Option Json) (timeout : Option Json) (resp : HttpResponse) :
    SentRequest × Except MaxAPIError ReqOutcome :=
  let url := build_url c path
  let query := pyUpdate [] (params.getD [])
  let query := dsetdefault query "access_token" (.jstr c.access_token)
  let sent : SentRequest :=
    { method := method.toUpper, url := url, query := query, body := json_body,
      timeout := match timeout with | some t => some t | none => c.timeout }
  let data := parsedData resp
  let out : Except MaxAPIError ReqOutcome :=
    if respOk resp.status then
      .ok (match data with | .jnull => .text resp.text | j => .data j)
    else
      match data with
      | .jobj fs =>
        .error { status_code := resp.status, error_code := dgetD fs "code" .jnull,
                 message := dgetD fs "message" .jnull, details := some fs }
      | _ =>
        .error { status_code := resp.status, error_code := .jnull,
                 message := .jnull, details := none }
  (sent, out)

end MaxBotAPI

/-- The exceptions `send_message` can surface: the argument-check
`ValueError`, an HTTP `MaxAPIError` raised by `_request`, or a decode
exception from `Message.from_dict`. -/
inductive SendErr where
  | valueError (msg : String)
  | api (e : MaxAPIError)
  | decode (e : DecodeErr)
  deriving DecidableEq, Repr

/-- What `send_message` returns: the raw `_request` outcome, or a decoded
`models.Message` when models are in use. -/
inductive SendResult where
  | raw (r : ReqOutcome)
  | modeled (m : Message)
  deriving DecidableEq, Repr

namespace MaxBotAPI

/-- Lines 391–396 of `api.py`: after a successful `_request`, when models are
in use and the data is a mapping whose `"message"` entry is a mapping, that
entry is decoded with `Message.from_dict`; in every other case the raw data
is returned unchanged. -/
def process_send_result (c : Client) (as_models : Option Bool) (o : ReqOutcome) :
    Except SendErr SendResult :=
  if should_use_models c as_models then
    match o with
    | .data (.jobj fs) =>
      (match dget fs "message" with
       | some (.jobj mfs) =>
         (match Message.from_dict (.jobj mfs) with
          | .ok m => .ok (.modeled m)
          | .error de => .error (.decode de))
       | _ => .ok (.raw o))
    | _ => .ok (.raw o)
  else .ok (.raw o)

/-- `MaxBotAPI.send_message`, given the transport's response.  The first
component is the request handed to the transport (`none` when the call raised
before issuing one).  Mirrors the source: the `ValueError` guard runs first;
then `params` gains `user_id`, `chat_id`, `disable_link_preview` (in that
order) when supplied; the body gains `text` and `attachments` when supplied
and is updated with `extra` when truthy; then `_request("POST", "/messages",
...)`; finally `process_send_result`. -/
def send_message (c : Client) (chat_id user_id text : Option Json)
    (attachments : Option (List Json)) (disable_link_preview : Option Json)
    (extra : Option PyDict) (as_models : Option Bool) (resp : HttpResponse) :
    Option SentRequest × Except SendErr SendResult :=
  if chat_id = none ∧ user_id = none then
    (none, .error (.valueError "Нужно указать chat_id или user_id"))
  else
    let params : PyDict :=
      (match user_id with | some v => [("user_id", v)] | none => []) ++
      (match chat_id with | some v => [("chat_id", v)] | none => []) ++
      (match disable_link_preview with
       | some v => [("disable_link_preview", v)] | none => [])
    let body : PyDict :=
      (match text with | some v => [("text", v)] | none => []) ++
      (match attachments with | some l => [("attachments", .jarr l)] | none => [])
    let body : PyDict :=
      match extra with
      | some e => if e.isEmpty then body else pyUpdate body e
      | none => body
    let r := request c "POST" "/messages" (some params) (some (.jobj body)) none resp
    (some r.1,
      match r.2 with
      | .error e => .error (.api e)
      | .ok o => process_send_result c as_models o)

end MaxBotAPI

/-! ## Well-formedness predicates

`from_dict(to_dict(e)) == e` cannot hold for arbitrary constructible values:
a `LocationAttachment` element inside a message body re-decodes to the base
class, and an `Update` whose free-form `payload` itself contains the
`update_type`/`timestamp` keys loses them on re-decode.  The predicates below
carve out the values the decoders themselves produce. -/

/-- All attachments of the body are base-class `Attachment` values (what
`MessageBody.from_dict` always produces). -/
def MessageBody.wf (b : MessageBody) : Bool :=
  b.attachments.all Attachment.isBase

/-- Well-formedness of a `LinkedMessage`: its nested body. -/
def LinkedMessage.wf (l : LinkedMessage) : Bool :=
  l.message.wf

/-- Well-formedness of a `Message`: its body and optional link. -/
def Message.wf (m : Message) : Bool :=
  m.body.wf && (match m.link with | some l => l.wf | none => true)

/-- Well-formedness of a `Chat`: its optional pinned message. -/
def Chat.wf (c : Chat) : Bool :=
  match c.pinned_message with | some m => m.wf | none => true

/-- The free-form `payload` of an `Update` does not shadow the two reserved
keys (`Update.from_dict` filters them out, so it never produces such a
payload). -/
def Update.wfKeys (u : Update) : Bool :=
  (dget u.payload "update_type").isNone && (dget u.payload "timestamp").isNone

/-! ## Infrastructure lemmas -/

instance {ε α : Type} [DecidableEq ε] [DecidableEq α] : DecidableEq (Except ε α) :=
  fun a b =>
  match a, b with
  | .ok x, .ok y =>
    if h : x = y then isTrue (by rw [h]) else isFalse (fun he => h (by injection he))
  | .error x, .error y =>
    if h : x = y then isTrue (by rw [h]) else isFalse (fun he => h (by injection he))
  | .ok _, .error _ => isFalse nofun
  | .error _, .ok _ => isFalse nofun

theorem dget_dset_self (d : PyDict) (k : String) (v : Json) :
    dget (dset d k v) k = some v := by
  induction d with
  | nil => simp [dget, dset]
  | cons kv rest ih =>
    obtain ⟨k', v'⟩ := kv
    by_cases h : k' = k
    · simp [dget, dset, h]
    · simp [dget, dset, h, ih]

theorem dget_dset_ne (d : PyDict) (k' k : String) (v : Json) (h : k' ≠ k) :
    dget (dset d k' v) k = dget d k := by
  induction d with
  | nil => simp [dget, dset, h]
  | cons kv rest ih =>
    obtain ⟨k0, v0⟩ := kv
    by_cases h0 : k0 = k'
    · simp [dget, dset, h0, h]
    · simp only [dset, if_neg h0, dget]
      by_cases h1 : k0 = k <;> simp [h1, ih]

theorem dset_eq_of_dget (d : PyDict) (k : String) (v : Json)
    (h : dget d k = some v) : dset d k v = d := by
  induction d with
  | nil => simp [dget] at h
  | cons kv rest ih =>
    obtain ⟨k0, v0⟩ := kv
    by_cases h0 : k0 = k
    · simp only [dget, if_pos h0] at h
      injection h with h
      simp [dset, h0, h]
    · simp only [dget, if_neg h0] at h
      simp [dset, h0, ih h]

theorem dget_append_left (d e : PyDict) (k : String) (v : Json)
    (h : dget d k = some v) : dget (d ++ e) k = some v := by
  induction d with
  | nil => simp [dget] at h
  | cons kv rest ih =>
    obtain ⟨k0, v0⟩ := kv
    by_cases h0 : k0 = k
    · simp only [dget, if_pos h0] at h
      simp [dget, h0, h]
    · simp only [dget, if_neg h0] at h
      simp [dget, h0, ih h]

theorem dget_append_right (d e : PyDict) (k : String)
    (h : dget d k = none) : dget (d ++ e) k = dget e k := by
  induction d with
  | nil => simp
  | cons kv rest ih =>
    obtain ⟨k0, v0⟩ := kv
    by_cases h0 : k0 = k
    · simp [dget, h0] at h
    · simp only [dget, if_neg h0] at h
      simp [dget, h0, ih h]

theorem dset_append_of_none (d : PyDict) (k : String) (v : Json)
    (h : dget d k = none) : dset d k v = d ++ [(k, v)] := by
  induction d with
  | nil => simp [dset]
  | cons kv rest ih =>
    obtain ⟨k0, v0⟩ := kv
    by_cases h0 : k0 = k
    · simp [dget, h0] at h
    · simp only [dget, if_neg h0] at h
      simp [dset, h0, ih h]

theorem dget_filter_key (p : String → Bool) (d : PyDict) (k : String)
    (h : p k = true) : dget (d.filter fun kv => p kv.1) k = dget d k := by
  induction d with
  | nil => simp [dget]
  | cons kv rest ih =>
    obtain ⟨k0, v0⟩ := kv
    by_cases h0 : k0 = k
    · subst h0
      simp [List.filter, h, dget, ih]
    · by_cases hp : p k0 <;> simp [List.filter, hp, dget, h0, ih]

theorem filter_eq_self_of_keys (p : String → Bool) (d : PyDict)
    (h : ∀ kv ∈ d, p kv.1 = true) : d.filter (fun kv => p kv.1) = d := by
  induction d with
  | nil => rfl
  | cons kv rest ih =>
    have hk := h kv (by simp)
    simp only [List.filter, hk]
    rw [ih fun kv' hkv' => h kv' (by simp [hkv'])]

theorem dget_none_key (d : PyDict) (k : String) (h : dget d k = none) :
    ∀ kv ∈ d, kv.1 ≠ k := by
  induction d with
  | nil => simp
  | cons kv rest ih =>
    obtain ⟨k0, v0⟩ := kv
    by_cases h0 : k0 = k
    · simp [dget, h0] at h
    · simp only [dget, if_neg h0] at h
      intro kv' hkv'
      rcases List.mem_cons.mp hkv' with h1 | h1
      · simp [h1, h0]
      · exact ih h kv' h1

/-! ## Round-trip lemmas for the codec -/

theorem user_roundtrip (u : User) : User.from_dict (.jobj u.to_dict) = .ok u := rfl

theorem userWithPhoto_roundtrip (u : UserWithPhoto) :
    UserWithPhoto.from_dict (.jobj u.to_dict) = .ok u := rfl

theorem recipient_roundtrip (r : Recipient) :
    Recipient.from_dict (.jobj r.to_dict) = .ok r := rfl

theorem messageStat_roundtrip (s : MessageStat) :
    MessageStat.from_dict (.jobj s.to_dict) = .ok s := rfl

set_option maxHeartbeats 1000000 in
theorem chatMember_roundtrip (m : ChatMember) :
    ChatMember.from_dict (.jobj m.to_dict) = .ok m := by
  obtain ⟨uwp, lat, io, ia, jt, perms⟩ := m
  cases perms with
  | none => rfl
  | some l => rfl

theorem attachment_base_roundtrip (t p : Json) :
    Attachment.from_dict (.jobj (Attachment.base t p).to_dict) = .ok (.base t p) := by
  by_cases h : p = .jnull
  · subst h; rfl
  · simp only [Attachment.to_dict, if_neg h]
    rfl

theorem chatAdmin_roundtrip (a : ChatAdmin) :
    ChatAdmin.from_dict (.jobj a.to_dict) = .ok a := by
  obtain ⟨uid, perms⟩ := a
  cases perms with
  | nil => rfl
  | cons x xs => rfl

theorem location_roundtrip_consistent (t : Json) (fs : PyDict) (lat lng : Json)
    (hlat : dget fs "latitude" = some lat) (hlng : dget fs "longitude" = some lng) :
    LocationAttachment.from_dict (.jobj (Attachment.location t (some fs) lat lng).to_dict) =
      .ok (.location t (some fs) lat lng) := by
  have hne : fs.isEmpty = false := by
    cases fs with
    | nil => simp [dget] at hlat
    | cons kv rest => rfl
  have hset : dset (dset fs "latitude" lat) "longitude" lng = fs := by
    rw [dset_eq_of_dget fs "latitude" lat hlat, dset_eq_of_dget fs "longitude" lng hlng]
  simp only [Attachment.to_dict, Option.getD, hset]
  simp [LocationAttachment.from_dict, asObj, optGet, dgetD, req, dget, pyTruthy,
    hne, hlat, hlng, bind, Except.bind, pure, Except.pure]

theorem jarr_truthy_or (l : List Json) :
    (if pyTruthy (.jarr l) then Json.jarr l else .jarr []) = .jarr l := by
  cases l <;> rfl

theorem decodeList_base_atts (atts : List Attachment)
    (h : atts.all Attachment.isBase = true) :
    decodeList Attachment.from_dict (atts.map fun a => .jobj a.to_dict) = .ok atts := by
  induction atts with
  | nil => rfl
  | cons a rest ih =>
    simp only [List.all_cons, Bool.and_eq_true] at h
    cases a with
    | base t p =>
      simp [decodeList, attachment_base_roundtrip, ih h.2, bind, Except.bind]
    | location t p lat lng => simp [Attachment.isBase] at h

theorem messageBody_roundtrip (b : MessageBody) (h : b.wf = true) :
    MessageBody.from_dict (.jobj b.to_dict) = .ok b := by
  obtain ⟨mid, seq, text, atts, markup⟩ := b
  simp only [MessageBody.wf] at h
  simp [MessageBody.from_dict, MessageBody.to_dict, asObj, optGet, dgetD, req, dget,
    jarr_truthy_or, pyIter, decodeList_base_atts atts h, bind, Except.bind, pure,
    Except.pure]

theorem linkedMessage_roundtrip (l : LinkedMessage) (h : l.wf = true) :
    LinkedMessage.from_dict (.jobj l.to_dict) = .ok l := by
  obtain ⟨t, sender, cid, msg⟩ := l
  simp only [LinkedMessage.wf] at h
  cases sender <;>
    simp [LinkedMessage.from_dict, LinkedMessage.to_dict, asObj, optGet, dgetD, req,
      dget, user_roundtrip, messageBody_roundtrip msg h, bind, Except.bind, pure,
      Except.pure]

theorem message_roundtrip (m : Message) (h : m.wf = true) :
    Message.from_dict (.jobj m.to_dict) = .ok m := by
  obtain ⟨recp, body, ts, sender, lnk, stat, url⟩ := m
  simp only [Message.wf, Bool.and_eq_true] at h
  obtain ⟨hb, hl⟩ := h
  cases lnk with
  | none =>
    cases sender <;> cases stat <;>
      simp [Message.from_dict, Message.to_dict, asObj, optGet, dgetD, req, dget,
        user_roundtrip, messageStat_roundtrip, recipient_roundtrip,
        messageBody_roundtrip body hb, bind, Except.bind, pure, Except.pure]
  | some l =>
    cases sender <;> cases stat <;>
      simp [Message.from_dict, Message.to_dict, asObj, optGet, dgetD, req, dget,
        user_roundtrip, messageStat_roundtrip, recipient_roundtrip,
        messageBody_roundtrip body hb, linkedMessage_roundtrip l hl,
        bind, Except.bind, pure, Except.pure]

theorem chat_roundtrip (c : Chat) (h : c.wf = true) :
    Chat.from_dict (.jobj c.to_dict) = .ok c := by
  obtain ⟨cid, t, st, title, lev, pc, icon, ip, desc, oid, parts, link, dlg, cmi, pin⟩ := c
  simp only [Chat.wf] at h
  cases pin with
  | none =>
    cases parts <;> cases dlg <;>
      simp [Chat.from_dict, Chat.to_dict, asObj, optGet, dgetD, req, dget,
        userWithPhoto_roundtrip, bind, Except.bind, pure, Except.pure]
  | some pm =>
    cases parts <;> cases dlg <;>
      simp [Chat.from_dict, Chat.to_dict, asObj, optGet, dgetD, req, dget,
        userWithPhoto_roundtrip, message_roundtrip pm h, bind, Except.bind, pure,
        Except.pure]

theorem update_filter_eq (p : PyDict) (h1 : dget p "update_type" = none)
    (h2 : dget p "timestamp" = none) :
    (p.filter fun kv => kv.1 != "update_type" && kv.1 != "timestamp") = p := by
  induction p with
  | nil => rfl
  | cons kv rest ih =>
    obtain ⟨k0, v0⟩ := kv
    have hne1 : k0 ≠ "update_type" := by intro he; simp [dget, he] at h1
    have hne2 : k0 ≠ "timestamp" := by intro he; simp [dget, he] at h2
    have ht1 : dget rest "update_type" = none := by simpa [dget, hne1] using h1
    have ht2 : dget rest "timestamp" = none := by simpa [dget, hne2] using h2
    have hp : (k0 != "update_type" && k0 != "timestamp") = true := by
      simp [bne, hne1, hne2]
    simp [List.filter, hp, ih ht1 ht2]

theorem dget_update_filter (d : PyDict) (k : String) (hk1 : k ≠ "update_type")
    (hk2 : k ≠ "timestamp") :
    dget (d.filter fun kv => kv.1 != "update_type" && kv.1 != "timestamp") k =
      dget d k := by
  induction d with
  | nil => rfl
  | cons kv rest ih =>
    obtain ⟨k0, v0⟩ := kv
    by_cases hp : (k0 != "update_type" && k0 != "timestamp") = true
    · simp only [List.filter, hp, dget]
      by_cases h0 : k0 = k <;> simp [h0, ih]
    · have hp' : (k0 != "update_type" && k0 != "timestamp") = false := by
        simpa using hp
      have hk0 : k0 = "update_type" ∨ k0 = "timestamp" := by
        by_cases a : k0 = "update_type"
        · exact .inl a
        · by_cases b : k0 = "timestamp"
          · exact .inr b
          · exact absurd (by simp [bne, a, b]) hp
      have hne : k0 ≠ k := by
        rcases hk0 with h | h <;> subst h
        · exact fun he => hk1 he.symm
        · exact fun he => hk2 he.symm
      simp [List.filter, hp', dget, hne, ih]

theorem update_roundtrip (u : Update) (h : u.wfKeys = true) :
    Update.from_dict (.jobj u.to_dict) = .ok u := by
  obtain ⟨ut, ts, p⟩ := u
  simp only [Update.wfKeys, Bool.and_eq_true, Option.isNone_iff_eq_none] at h
  obtain ⟨h1, h2⟩ := h
  have e1 : dset p "update_type" ut = p ++ [("update_type", ut)] :=
    dset_append_of_none p _ _ h1
  have h2' : dget (p ++ [("update_type", ut)]) "timestamp" = none := by
    rw [dget_append_right p _ _ h2]; rfl
  have e2 : dset (p ++ [("update_type", ut)]) "timestamp" ts =
      p ++ [("update_type", ut), ("timestamp", ts)] := by
    rw [dset_append_of_none _ _ _ h2', List.append_assoc]
    rfl
  have hut : dget (p ++ [("update_type", ut), ("timestamp", ts)]) "update_type" =
      some ut := by
    rw [dget_append_right p _ _ h1]; rfl
  have hts : dget (p ++ [("update_type", ut), ("timestamp", ts)]) "timestamp" =
      some ts := by
    rw [dget_append_right p _ _ h2]; rfl
  have hfil : ((p ++ [("update_type", ut), ("timestamp", ts)]).filter
      fun kv => kv.1 != "update_type" && kv.1 != "timestamp") = p := by
    rw [List.filter_append, update_filter_eq p h1 h2]
    simp [List.filter]
  simp [Update.from_dict, Update.to_dict, asObj, req, e1, e2, hut, hts, hfil,
    bind, Except.bind, pure, Except.pure]

/-- The spec's "p without its leading separator": drop one leading `'/'` when
present (formalizes the claim's phrase, for comparison with `build_url`). -/
def stripLeadingSlash (p : String) : String :=
  match p.data with
  | '/' :: rest => String.mk rest
  | _ => p

theorem dget_eq_none_of_not_mem (d : PyDict) (k : String)
    (h : ∀ kv ∈ d, kv.1 ≠ k) : dget d k = none := by
  induction d with
  | nil => rfl
  | cons kv rest ih =>
    obtain ⟨k0, v0⟩ := kv
    have : k0 ≠ k := h (k0, v0) (by simp)
    simp only [dget, if_neg this]
    exact ih fun kv' h' => h kv' (List.mem_cons_of_mem _ h')

theorem pyUpdate_append (acc kvs : PyDict)
    (h1 : ∀ kv ∈ kvs, dget acc kv.1 = none)
    (h2 : (kvs.map Prod.fst).Nodup) : pyUpdate acc kvs = acc ++ kvs := by
  induction kvs generalizing acc with
  | nil => simp [pyUpdate]
  | cons kv rest ih =>
    obtain ⟨k0, v0⟩ := kv
    simp only [List.map_cons, List.nodup_cons, List.mem_map] at h2
    have e0 : dset acc k0 v0 = acc ++ [(k0, v0)] :=
      dset_append_of_none acc k0 v0 (h1 (k0, v0) (by simp))
    have h1' : ∀ kv ∈ rest, dget (acc ++ [(k0, v0)]) kv.1 = none := by
      intro kv' hkv'
      rw [dget_append_right acc _ _ (h1 kv' (List.mem_cons_of_mem _ hkv'))]
      have : k0 ≠ kv'.1 := by
        intro he
        exact h2.1 ⟨kv', hkv', he.symm⟩
      simp [dget, this]
    have : pyUpdate (acc ++ [(k0, v0)]) rest = (acc ++ [(k0, v0)]) ++ rest :=
      ih (acc ++ [(k0, v0)]) h1' h2.2
    simp only [pyUpdate, List.foldl_cons] at *
    rw [e0] at *
    rw [this, List.append_assoc]
    rfl

theorem attachment_from_dict_isBase (j : Json) (a : Attachment)
    (h : Attachment.from_dict j = .ok a) : a.isBase = true := by
  cases j <;> simp only [Attachment.from_dict, asObj, bind, Except.bind] at h <;>
    try exact absurd h (by simp)
  case jobj fs =>
    cases hr : req fs "type" with
    | error e => rw [hr] at h; exact absurd h (by simp)
    | ok t =>
      rw [hr] at h
      simp only [pure, Except.pure, Except.ok.injEq] at h
      rw [← h]
      rfl

theorem decodeList_from_dict_isBase (xs : List Json) (atts : List Attachment)
    (h : decodeList Attachment.from_dict xs = .ok atts) :
    atts.all Attachment.isBase = true := by
  induction xs generalizing atts with
  | nil =>
    simp only [decodeList, Except.ok.injEq] at h
    rw [← h]
    rfl
  | cons x rest ih =>
    simp only [decodeList, bind, Except.bind] at h
    cases ha : Attachment.from_dict x with
    | error e => rw [ha] at h; exact absurd h (by simp)
    | ok a =>
      rw [ha] at h
      cases hr : decodeList Attachment.from_dict rest with
      | error e => rw [hr] at h; exact absurd h (by simp)
      | ok as =>
        rw [hr] at h
        simp only [Except.ok.injEq] at h
        rw [← h, List.all_cons, attachment_from_dict_isBase x a ha, ih as hr]
        rfl

theorem messageBody_from_dict_isBase (j : Json) (b : MessageBody)
    (h : MessageBody.from_dict j = .ok b) :
    b.attachments.all Attachment.isBase = true := by
  cases j <;> simp only [MessageBody.from_dict, asObj, bind, Except.bind] at h <;>
    try exact absurd h (by simp)
  case jobj fs =>
    cases hi : pyIter (if pyTruthy (optGet fs "attachments") then optGet fs "attachments"
        else .jarr []) with
    | error e => rw [hi] at h; exact absurd h (by simp)
    | ok elems =>
      rw [hi] at h
      dsimp only at h
      cases hl : decodeList Attachment.from_dict elems with
      | error e => rw [hl] at h; exact absurd h (by simp)
      | ok atts =>
        rw [hl] at h
        dsimp only at h
        cases hm : req fs "mid" with
        | error e => rw [hm] at h; exact absurd h (by simp)
        | ok mid =>
          rw [hm] at h
          dsimp only at h
          cases hs : req fs "seq" with
          | error e => rw [hs] at h; exact absurd h (by simp)
          | ok seq =>
            rw [hs] at h
            simp only [pure, Except.pure, Except.ok.injEq] at h
            rw [← h]
            exact decodeList_from_dict_isBase elems atts hl

theorem process_send_result_not_valueError (c : Client) (as_models : Option Bool)
    (o : ReqOutcome) (msg : String) :
    MaxBotAPI.process_send_result c as_models o ≠ .error (.valueError msg) := by
  unfold MaxBotAPI.process_send_result
  split
  · split
    · split
      · split <;> simp
      · simp
    · simp
  · simp

theorem send_pair_snd_ne (c : Client) (as_models : Option Bool)
    (r : SentRequest × Except MaxAPIError ReqOutcome) (msg : String) :
    (match r.2 with
     | .error e => (.error (.api e) : Except SendErr SendResult)
     | .ok o => MaxBotAPI.process_send_result c as_models o) ≠
      .error (.valueError msg) := by
  rcases r with ⟨sent, rout⟩
  cases rout with
  | error e => simp
  | ok o => exact process_send_result_not_valueError c as_models o msg

/-! ## Claim theorems -/

/-- C1, counterexample: the round-trip law `from_dict(to_dict(e)) == e` fails
for a `LocationAttachment` constructed with its optional `payload` absent:
`to_dict` writes the coordinates into a fresh payload dict, so re-decoding
yields a value whose `payload` is that dict rather than `None`. -/
theorem C1_location_roundtrip_counterexample :
    LocationAttachment.from_dict
        (.jobj (Attachment.location (.jstr "location") none
          (.jnum 3 2) (.jnum 5 2)).to_dict) =
      .ok (.location (.jstr "location")
        (some [("latitude", .jnum 3 2), ("longitude", .jnum 5 2)])
        (.jnum 3 2) (.jnum 5 2)) ∧
    LocationAttachment.from_dict
        (.jobj (Attachment.location (.jstr "location") none
          (.jnum 3 2) (.jnum 5 2)).to_dict) ≠
      .ok (.location (.jstr "location") none (.jnum 3 2) (.jnum 5 2)) := by
  constructor
  · decide
  · decide

/-- C1 (amended): `from_dict(to_dict(e)) == e` holds for every entity with
optional fields present or absent, provided (a) attachment elements inside
message bodies are base-class `Attachment` values (what the decoders
themselves produce — a `LocationAttachment` element re-decodes to the base
class), (b) an `Update`'s free-form payload does not itself contain the
`update_type`/`timestamp` keys, and (c) for `LocationAttachment` itself the
payload is present and already holds `latitude`/`longitude` entries equal to
the coordinate fields; with payload absent or inconsistent the round trip
fails (see the counterexample). -/
theorem C1_entity_roundtrip_amended :
    (∀ u : User, User.from_dict (.jobj u.to_dict) = .ok u) ∧
    (∀ u : UserWithPhoto, UserWithPhoto.from_dict (.jobj u.to_dict) = .ok u) ∧
    (∀ m : ChatMember, ChatMember.from_dict (.jobj m.to_dict) = .ok m) ∧
    (∀ r : Recipient, Recipient.from_dict (.jobj r.to_dict) = .ok r) ∧
    (∀ t p, Attachment.from_dict (.jobj (Attachment.base t p).to_dict) =
      .ok (.base t p)) ∧
    (∀ (t : Json) (fs : PyDict) (lat lng : Json),
      dget fs "latitude" = some lat → dget fs "longitude" = some lng →
      LocationAttachment.from_dict
          (.jobj (Attachment.location t (some fs) lat lng).to_dict) =
        .ok (.location t (some fs) lat lng)) ∧
    (∀ b : MessageBody, b.wf = true →
      MessageBody.from_dict (.jobj b.to_dict) = .ok b) ∧
    (∀ l : LinkedMessage, l.wf = true →
      LinkedMessage.from_dict (.jobj l.to_dict) = .ok l) ∧
    (∀ m : Message, m.wf = true → Message.from_dict (.jobj m.to_dict) = .ok m) ∧
    (∀ c : Chat, c.wf = true → Chat.from_dict (.jobj c.to_dict) = .ok c) ∧
    (∀ a : ChatAdmin, ChatAdmin.from_dict (.jobj a.to_dict) = .ok a) ∧
    (∀ u : Update, u.wfKeys = true → Update.from_dict (.jobj u.to_dict) = .ok u) :=
  ⟨user_roundtrip, userWithPhoto_roundtrip, chatMember_roundtrip,
   recipient_roundtrip, attachment_base_roundtrip, location_roundtrip_consistent,
   messageBody_roundtrip, linkedMessage_roundtrip, message_roundtrip,
   chat_roundtrip, chatAdmin_roundtrip, update_roundtrip⟩

/-- C1, witness: the amended round trip evaluated at a consistent
`LocationAttachment` and at a concrete `Update`. -/
theorem C1_entity_roundtrip_witness :
    LocationAttachment.from_dict
        (.jobj (Attachment.location (.jstr "location")
          (some [("latitude", .jnum 3 2), ("longitude", .jnum 5 2)])
          (.jnum 3 2) (.jnum 5 2)).to_dict) =
      .ok (.location (.jstr "location")
        (some [("latitude", .jnum 3 2), ("longitude", .jnum 5 2)])
        (.jnum 3 2) (.jnum 5 2)) ∧
    Update.from_dict (.jobj (Update.mk (.jstr "message_created") (.jnum 99 1)
        [("foo", .jstr "bar")]).to_dict) =
      .ok ⟨.jstr "message_created", .jnum 99 1, [("foo", .jstr "bar")]⟩ :=
  ⟨C1_entity_roundtrip_amended.2.2.2.2.2.1 _ _ _ _ rfl rfl,
   C1_entity_roundtrip_amended.2.2.2.2.2.2.2.2.2.2.2 _ (by decide)⟩

/-- C2, counterexample: `query.setdefault("access_token", ...)` keeps a
caller-supplied `access_token` entry, so the caller's value replaces the
client's token in the query that is sent. -/
theorem C2_token_override_counterexample :
    dget (MaxBotAPI.request (mkClient "SECRET" "https://platform-api.max.ru"
        none false) "GET" "/me" (some [("access_token", .jstr "EVIL")]) none none
        ⟨200, "application/json", some (.jobj []), ""⟩).1.query "access_token" =
      some (.jstr "EVIL") ∧
    dget (MaxBotAPI.request (mkClient "SECRET" "https://platform-api.max.ru"
        none false) "GET" "/me" (some [("access_token", .jstr "EVIL")]) none none
        ⟨200, "application/json", some (.jobj []), ""⟩).1.query "access_token" ≠
      some (.jstr "SECRET") := by
  constructor
  · decide
  · decide

/-- C2 (amended): the query sent to the transport always contains the
`"access_token"` key — the client's token exactly when the caller did not
supply that key; caller-supplied entries always take precedence, including
for the token key, and all non-colliding caller entries are passed through
unchanged.  (`params` ranges over genuine Python dicts: duplicate-free
keys.) -/
theorem C2_token_merge_amended (c : Client) (method path : String) (params : PyDict)
    (body : Option Json) (t : Option Json) (resp : HttpResponse)
    (hnd : (params.map Prod.fst).Nodup) :
    (dget params "access_token" = none →
      dget (MaxBotAPI.request c method path (some params) body t resp).1.query
        "access_token" = some (.jstr c.access_token)) ∧
    (∀ v, dget params "access_token" = some v →
      dget (MaxBotAPI.request c method path (some params) body t resp).1.query
        "access_token" = some v) ∧
    (∀ k, k ≠ "access_token" →
      dget (MaxBotAPI.request c method path (some params) body t resp).1.query k =
        dget params k) := by
  have hq : (MaxBotAPI.request c method path (some params) body t resp).1.query =
      dsetdefault params "access_token" (.jstr c.access_token) := by
    simp [MaxBotAPI.request, pyUpdate_append [] params (by simp [dget]) hnd]
  refine ⟨?_, ?_, ?_⟩
  · intro h
    rw [hq]
    simp only [dsetdefault, h]
    rw [dget_append_right params _ _ h]
    rfl
  · intro v h
    rw [hq]
    simp only [dsetdefault, h]
  · intro k hk
    rw [hq]
    simp only [dsetdefault]
    cases htok : dget params "access_token" with
    | some v => rfl
    | none =>
      cases hk2 : dget params k with
      | some v => exact dget_append_left params _ _ _ hk2
      | none =>
        rw [dget_append_right params _ _ hk2]
        have hne : ¬"access_token" = k := fun he => hk (Eq.symm he)
        simp [dget, hne]

/-- C2, witness: with no caller collision the client's token is sent. -/
theorem C2_token_merge_witness :
    dget (MaxBotAPI.request (mkClient "SECRET" "https://platform-api.max.ru"
        none false) "GET" "/me" (some [("count", .jnum 50 1)]) none none
        ⟨200, "application/json", some (.jobj []), ""⟩).1.query "access_token" =
      some (.jstr "SECRET") :=
  (C2_token_merge_amended _ "GET" "/me" [("count", .jnum 50 1)] none none _
    (by decide)).1 rfl

/-- C3, counterexample: a 3xx status is not a failure outcome — `resp.ok` is
true for status 301, so `_request` returns the raw text as a success. -/
theorem C3_redirect_counterexample :
    (MaxBotAPI.request (mkClient "T" "https://x" none false) "GET" "/me" none none
      none ⟨301, "text/plain", none, "moved"⟩).2 = .ok (.text "moved") := by
  decide

/-- C3 (amended): `_request` produces a failure outcome (raises `MaxAPIError`,
always carrying the status) exactly for statuses 400–599 (`resp.ok`); any
other status — 2xx and 3xx alike — is a success, returning the raw response
text when no non-null JSON value was parsed and the parsed value otherwise. -/
theorem C3_status_branch_amended (c : Client) (method path : String)
    (params : Option PyDict) (body : Option Json) (t : Option Json)
    (resp : HttpResponse) :
    (400 ≤ resp.status → resp.status < 600 →
      ∃ e : MaxAPIError,
        (MaxBotAPI.request c method path params body t resp).2 = .error e ∧
        e.status_code = resp.status) ∧
    (respOk resp.status = true → parsedData resp = .jnull →
      (MaxBotAPI.request c method path params body t resp).2 =
        .ok (.text resp.text)) ∧
    (respOk resp.status = true → parsedData resp ≠ .jnull →
      (MaxBotAPI.request c method path params body t resp).2 =
        .ok (.data (parsedData resp))) := by
  refine ⟨?_, ?_, ?_⟩
  · intro h1 h2
    have hok : respOk resp.status = false := by
      simp only [respOk, Bool.not_eq_false', Bool.and_eq_true, decide_eq_true_eq]
      omega
    cases hd : parsedData resp
    case jobj fs =>
      exact ⟨{ status_code := resp.status, error_code := dgetD fs "code" .jnull,
               message := dgetD fs "message" .jnull, details := some fs },
        by simp [MaxBotAPI.request, hok, hd], rfl⟩
    all_goals
      exact ⟨{ status_code := resp.status, error_code := .jnull, message := .jnull,
               details := none },
        by simp [MaxBotAPI.request, hok, hd], rfl⟩
  · intro hok hd
    simp [MaxBotAPI.request, hok, hd]
  · intro hok hd
    cases hd2 : parsedData resp <;> simp_all [MaxBotAPI.request, hok]

/-- C3, witness: a 500 response is a failure carrying the status, and a 200
`text/plain` body comes back as the literal text. -/
theorem C3_status_branch_witness :
    (∃ e : MaxAPIError,
      (MaxBotAPI.request (mkClient "T" "https://x" none false) "GET" "/me" none
        none none ⟨500, "text/plain", none, "oops"⟩).2 = .error e ∧
      e.status_code = 500) ∧
    (MaxBotAPI.request (mkClient "T" "https://x" none false) "GET" "/me" none
      none none ⟨200, "text/plain", none, "ok"⟩).2 = .ok (.text "ok") :=
  ⟨(C3_status_branch_amended _ "GET" "/me" none none none
      ⟨500, "text/plain", none, "oops"⟩).1 (by decide) (by decide),
   (C3_status_branch_amended _ "GET" "/me" none none none
      ⟨200, "text/plain", none, "ok"⟩).2.1 (by decide) (by decide)⟩

/-- C4, counterexample: decoding a location attachment whose payload lacks
`latitude`/`longitude` does not fail — the coordinates are silently defaulted
to `0.0` (`payload.get("latitude", 0.0)`), contradicting the claim that
required fields are never defaulted. -/
theorem C4_location_default_counterexample :
    LocationAttachment.from_dict
        (.jobj [("type", .jstr "location"), ("payload", .jobj [])]) =
      .ok (.location (.jstr "location") (some []) (.jnum 0 1) (.jnum 0 1)) := by
  decide

/-- C5, counterexample: decoding the spec's example attachment
(`type="location"`, payload with coordinates) where attachments are decoded —
element-wise inside `MessageBody` via `Attachment.from_dict` — yields the
base representation, not a `LocationAttachment` variant: there is no
discriminator dispatch. -/
theorem C5_dispatch_counterexample :
    MessageBody.from_dict (.jobj [("mid", .jstr "m1"), ("seq", .jnum 1 1),
        ("attachments", .jarr [.jobj [("type", .jstr "location"),
          ("payload", .jobj [("latitude", .jnum 3 2), ("longitude", .jnum 5 2)])]])]) =
      .ok ⟨.jstr "m1", .jnum 1 1, .jnull,
        [.base (.jstr "location")
          (.jobj [("latitude", .jnum 3 2), ("longitude", .jnum 5 2)])], .jnull⟩ ∧
    (Attachment.base (.jstr "location")
        (.jobj [("latitude", .jnum 3 2), ("longitude", .jnum 5 2)])).isBase = true := by
  constructor
  · decide
  · rfl

/-- C5 (amended): attachment decoding never dispatches on the discriminator:
`Attachment.from_dict` returns the base representation (type and payload
unchanged) whatever the `type` value, every attachment a decoded
`MessageBody` holds is base-class, and the location variant arises only from
an explicit `LocationAttachment.from_dict` call — which does extract
`latitude`/`longitude` from the payload (the spec's example), with `to_dict`
writing both keys back into the payload map. -/
theorem C5_attachment_no_dispatch_amended :
    (∀ (d : PyDict) (t : Json), dget d "type" = some t →
      Attachment.from_dict (.jobj d) = .ok (.base t (optGet d "payload"))) ∧
    (∀ (j : Json) (b : MessageBody), MessageBody.from_dict j = .ok b →
      b.attachments.all Attachment.isBase = true) ∧
    (LocationAttachment.from_dict (.jobj [("type", .jstr "location"),
        ("payload", .jobj [("latitude", .jnum 3 2), ("longitude", .jnum 5 2)])]) =
      .ok (.location (.jstr "location")
        (some [("latitude", .jnum 3 2), ("longitude", .jnum 5 2)])
        (.jnum 3 2) (.jnum 5 2))) ∧
    ((Attachment.location (.jstr "location")
        (some [("latitude", .jnum 3 2), ("longitude", .jnum 5 2)])
        (.jnum 3 2) (.jnum 5 2)).to_dict =
      [("type", .jstr "location"),
       ("payload", .jobj [("latitude", .jnum 3 2), ("longitude", .jnum 5 2)])]) := by
  refine ⟨?_, messageBody_from_dict_isBase, by decide, by decide⟩
  intro d t h
  simp [Attachment.from_dict, asObj, req, h, bind, Except.bind, pure, Except.pure]

/-- C5, witness: the base decoder keeps an unknown discriminator unchanged. -/
theorem C5_attachment_no_dispatch_witness :
    Attachment.from_dict (.jobj [("type", .jstr "video")]) =
      .ok (.base (.jstr "video") .jnull) :=
  C5_attachment_no_dispatch_amended.1 [("type", .jstr "video")] (.jstr "video") rfl

/-- C6: for every failure outcome (status 400–599) the `MaxAPIError` carries
the status code; when the parsed body is a mapping, `error_code`/`message`
are its `"code"`/`"message"` entries (absent → `None`) and `details` is the
full mapping; otherwise all three are `None` (never the raw text). -/
theorem C6_error_normalizer (c : Client) (method path : String)
    (params : Option PyDict) (body : Option Json) (t : Option Json)
    (resp : HttpResponse) (h1 : 400 ≤ resp.status) (h2 : resp.status < 600) :
    (∀ fs : PyDict, parsedData resp = .jobj fs →
      (MaxBotAPI.request c method path params body t resp).2 =
        .error { status_code := resp.status, error_code := dgetD fs "code" .jnull,
                 message := dgetD fs "message" .jnull, details := some fs }) ∧
    ((∀ fs : PyDict, parsedData resp ≠ .jobj fs) →
      (MaxBotAPI.request c method path params body t resp).2 =
        .error { status_code := resp.status, error_code := .jnull,
                 message := .jnull, details := none }) := by
  have hok : respOk resp.status = false := by
    simp only [respOk, Bool.not_eq_false', Bool.and_eq_true, decide_eq_true_eq]
    omega
  constructor
  · intro fs hd
    simp [MaxBotAPI.request, hok, hd]
  · intro hd
    cases hd2 : parsedData resp <;> simp [MaxBotAPI.request, hok, hd2]
    exact absurd hd2 (by simpa using hd _)

/-- C6, witness: the spec's 404 example. -/
theorem C6_error_normalizer_witness :
    (MaxBotAPI.request (mkClient "T" "https://x" none false) "GET" "/chats/5" none
      none none
      ⟨404, "application/json",
       some (.jobj [("code", .jstr "chat_not_found"),
                    ("message", .jstr "no such chat")]), ""⟩).2 =
      .error { status_code := 404, error_code := .jstr "chat_not_found",
               message := .jstr "no such chat",
               details := some [("code", .jstr "chat_not_found"),
                                ("message", .jstr "no such chat")] } :=
  (C6_error_normalizer (mkClient "T" "https://x" none false) "GET" "/chats/5" none
    none none
    ⟨404, "application/json",
     some (.jobj [("code", .jstr "chat_not_found"),
                  ("message", .jstr "no such chat")]), ""⟩
    (by decide) (by decide)).1
    [("code", .jstr "chat_not_found"), ("message", .jstr "no such chat")]
    (by decide)

/-- C7: decoding any mapping holding `update_type` and `timestamp` into an
`Update` succeeds, and re-encoding reproduces a dict with exactly the
original entries (every key looks up to the same value — Python dict
equality; the two reserved keys are re-appended at the end, which Python's
order-insensitive `==` does not observe). -/
theorem C7_update_dict_roundtrip (d : PyDict) (ut ts : Json)
    (hut : dget d "update_type" = some ut) (hts : dget d "timestamp" = some ts) :
    ∃ u : Update, Update.from_dict (.jobj d) = .ok u ∧
      ∀ k, dget (Update.to_dict u) k = dget d k := by
  refine ⟨⟨ut, ts, d.filter fun kv => kv.1 != "update_type" && kv.1 != "timestamp"⟩,
    ?_, ?_⟩
  · simp [Update.from_dict, asObj, req, hut, hts, bind, Except.bind, pure,
      Except.pure]
  · intro k
    show dget (dset (dset _ "update_type" ut) "timestamp" ts) k = dget d k
    by_cases h1 : k = "update_type"
    · subst h1
      rw [dget_dset_ne _ _ _ _ (by decide), dget_dset_self, hut]
    · by_cases h2 : k = "timestamp"
      · subst h2
        rw [dget_dset_self, hts]
      · rw [dget_dset_ne _ _ _ _ (fun he => h2 he.symm),
          dget_dset_ne _ _ _ _ (fun he => h1 he.symm),
          dget_update_filter d k h1 h2]

/-- C7, witness: a concrete update mapping with an extra free-form field. -/
theorem C7_update_dict_roundtrip_witness :
    ∃ u : Update,
      Update.from_dict (.jobj [("update_type", .jstr "message_created"),
        ("timestamp", .jnum 5 1), ("foo", .jstr "bar")]) = .ok u ∧
      ∀ k, dget (Update.to_dict u) k =
        dget [("update_type", .jstr "message_created"), ("timestamp", .jnum 5 1),
              ("foo", .jstr "bar")] k :=
  C7_update_dict_roundtrip
    [("update_type", .jstr "message_created"), ("timestamp", .jnum 5 1),
     ("foo", .jstr "bar")] (.jstr "message_created") (.jnum 5 1) rfl rfl

/-- C8: for every base endpoint (with or without trailing separators) and
every path (with or without a leading one), the URL the executor builds is
the right-stripped base, one `'/'`, and the path without its leading `'/'`. -/
theorem C8_build_url (token base : String) (timeout : Option Json) (um : Bool)
    (path : String) :
    MaxBotAPI.build_url (mkClient token base timeout um) path =
      pyRstripSlash base ++ "/" ++ stripLeadingSlash path := by
  obtain ⟨l⟩ := path
  cases l with
  | nil => rfl
  | cons c cs =>
    by_cases hc : c = '/'
    · subst hc
      apply String.ext
      simp [MaxBotAPI.build_url, mkClient, startsWithSlash, stripLeadingSlash,
        String.data_append]
    · apply String.ext
      simp [MaxBotAPI.build_url, mkClient, startsWithSlash, stripLeadingSlash, hc,
        String.data_append]

/-- C9: `send_message` raises `ValueError` — and issues no transport request —
exactly when both `chat_id` and `user_id` are `None`; otherwise a request is
always handed to the transport and the call never raises `ValueError`. -/
theorem C9_send_message_guard (c : Client) (chat_id user_id text : Option Json)
    (atts : Option (List Json)) (dlp : Option Json) (extra : Option PyDict)
    (as_models : Option Bool) (resp : HttpResponse) :
    (chat_id = none ∧ user_id = none →
      MaxBotAPI.send_message c chat_id user_id text atts dlp extra as_models resp =
        (none, .error (.valueError "Нужно указать chat_id или user_id"))) ∧
    (¬(chat_id = none ∧ user_id = none) →
      (∃ sr, (MaxBotAPI.send_message c chat_id user_id text atts dlp extra
        as_models resp).1 = some sr) ∧
      ∀ msg, (MaxBotAPI.send_message c chat_id user_id text atts dlp extra
        as_models resp).2 ≠ .error (.valueError msg)) := by
  constructor
  · rintro ⟨h1, h2⟩
    subst h1; subst h2
    rfl
  · intro h
    simp only [MaxBotAPI.send_message, if_neg h]
    constructor
    · exact ⟨_, rfl⟩
    · intro msg
      exact send_pair_snd_ne c as_models _ msg

/-- C9, witness: both identifiers absent raises before any request; a present
`chat_id` issues one. -/
theorem C9_send_message_guard_witness :
    MaxBotAPI.send_message (mkClient "T" "https://x" none false) none none
        (some (.jstr "hi")) none none none none
        ⟨200, "application/json", some (.jobj []), ""⟩ =
      (none, .error (.valueError "Нужно указать chat_id или user_id")) ∧
    (∃ sr, (MaxBotAPI.send_message (mkClient "T" "https://x" none false)
        (some (.jnum 7 1)) none (some (.jstr "hi")) none none none none
        ⟨200, "application/json", some (.jobj []), ""⟩).1 = some sr) :=
  ⟨(C9_send_message_guard _ none none (some (.jstr "hi")) none none none none
      ⟨200, "application/json", some (.jobj []), ""⟩).1 ⟨rfl, rfl⟩,
   ((C9_send_message_guard _ (some (.jnum 7 1)) none (some (.jstr "hi")) none none
      none none ⟨200, "application/json", some (.jobj []), ""⟩).2
      (by simp)).1⟩

/-- C10: on a 2xx response whose content type declares JSON, a body parsing to
the JSON value `null` is indistinguishable from a parse failure — both return
the raw response text — and only a non-null parsed value is returned as
structured data. -/
theorem C10_null_json (c : Client) (method path : String) (params : Option PyDict)
    (body : Option Json) (t : Option Json) (s : Nat) (ct txt : String)
    (hs1 : 200 ≤ s) (hs2 : s < 300) (hct : hasJsonCT ct = true) :
    ((MaxBotAPI.request c method path params body t ⟨s, ct, some .jnull, txt⟩).2 =
      (MaxBotAPI.request c method path params body t ⟨s, ct, none, txt⟩).2) ∧
    ((MaxBotAPI.request c method path params body t ⟨s, ct, some .jnull, txt⟩).2 =
      .ok (.text txt)) ∧
    (∀ j : Json, j ≠ .jnull →
      (MaxBotAPI.request c method path params body t ⟨s, ct, some j, txt⟩).2 =
        .ok (.data j)) := by
  have hok : respOk s = true := by
    simp only [respOk, Bool.not_eq_true', Bool.and_eq_false_iff,
      decide_eq_false_iff_not]
    omega
  refine ⟨?_, ?_, ?_⟩
  · simp [MaxBotAPI.request, hok, parsedData, hct]
  · simp [MaxBotAPI.request, hok, parsedData, hct]
  · intro j hj
    cases j <;> simp_all [MaxBotAPI.request, hok, parsedData, hct]

/-- C10, witness: status 200, JSON content type, body text `"null"`. -/
theorem C10_null_json_witness :
    (MaxBotAPI.request (mkClient "T" "https://x" none false) "GET" "/me" none none
      none ⟨200, "application/json", some .jnull, "null"⟩).2 = .ok (.text "null") :=
  ((C10_null_json (mkClient "T" "https://x" none false) "GET" "/me" none none none
    200 "application/json" "null" (by decide) (by decide) (by decide)).2).1

/-! ## Required-field behaviour of every decoder (claim C4) -/

theorem ok_bind {α β : Type} (a : α) (f : α → Except DecodeErr β) :
    ((Except.ok a : Except DecodeErr α) >>= f) = f a := rfl

theorem bind_ok_elim {α β : Type} {x : Except DecodeErr α}
    {f : α → Except DecodeErr β} {b : β} (h : (x >>= f) = .ok b) :
    ∃ a, x = .ok a ∧ f a = .ok b := by
  cases x with
  | error e => exact absurd h (by simp [bind, Except.bind])
  | ok a => exact ⟨a, rfl, by simpa [bind, Except.bind] using h⟩

theorem dget_isSome_of_req_ok {d : PyDict} {k : String} {v : Json}
    (h : req d k = .ok v) : (dget d k).isSome = true := by
  unfold req at h
  cases hd : dget d k with
  | none => rw [hd] at h; exact absurd h (by simp)
  | some w => rfl

theorem user_ok_required (d : PyDict) (v : User)
    (h : User.from_dict (.jobj d) = .ok v) :
    (dget d "user_id").isSome = true ∧ (dget d "first_name").isSome = true ∧
    (dget d "is_bot").isSome = true ∧ (dget d "last_activity_time").isSome = true := by
  unfold User.from_dict at h
  simp only [show asObj (Json.jobj d) = Except.ok d from rfl, ok_bind] at h
  obtain ⟨uid, h1, h⟩ := bind_ok_elim h
  obtain ⟨fn, h2, h⟩ := bind_ok_elim h
  obtain ⟨ib, h3, h⟩ := bind_ok_elim h
  obtain ⟨lat, h4, h⟩ := bind_ok_elim h
  exact ⟨dget_isSome_of_req_ok h1, dget_isSome_of_req_ok h2,
    dget_isSome_of_req_ok h3, dget_isSome_of_req_ok h4⟩

theorem userWithPhoto_ok_required (d : PyDict) (v : UserWithPhoto)
    (h : UserWithPhoto.from_dict (.jobj d) = .ok v) :
    (dget d "user_id").isSome = true ∧ (dget d "first_name").isSome = true ∧
    (dget d "is_bot").isSome = true ∧ (dget d "last_activity_time").isSome = true := by
  unfold UserWithPhoto.from_dict at h
  obtain ⟨base, h1, h⟩ := bind_ok_elim h
  exact user_ok_required d base h1

theorem chatMember_ok_required (d : PyDict) (v : ChatMember)
    (h : ChatMember.from_dict (.jobj d) = .ok v) :
    ((dget d "user_id").isSome = true ∧ (dget d "first_name").isSome = true ∧
     (dget d "is_bot").isSome = true ∧ (dget d "last_activity_time").isSome = true) ∧
    (dget d "last_access_time").isSome = true ∧ (dget d "is_owner").isSome = true ∧
    (dget d "is_admin").isSome = true ∧ (dget d "join_time").isSome = true := by
  unfold ChatMember.from_dict at h
  obtain ⟨base, h0, h⟩ := bind_ok_elim h
  simp only [show asObj (Json.jobj d) = Except.ok d from rfl, ok_bind] at h
  obtain ⟨lat, h1, h⟩ := bind_ok_elim h
  obtain ⟨io, h2, h⟩ := bind_ok_elim h
  obtain ⟨ia, h3, h⟩ := bind_ok_elim h
  obtain ⟨jt, h4, h⟩ := bind_ok_elim h
  exact ⟨userWithPhoto_ok_required d base h0, dget_isSome_of_req_ok h1,
    dget_isSome_of_req_ok h2, dget_isSome_of_req_ok h3, dget_isSome_of_req_ok h4⟩

theorem recipient_ok_required (d : PyDict) (v : Recipient)
    (h : Recipient.from_dict (.jobj d) = .ok v) :
    (dget d "chat_type").isSome = true := by
  unfold Recipient.from_dict at h
  simp only [show asObj (Json.jobj d) = Except.ok d from rfl, ok_bind] at h
  obtain ⟨ct, h1, h⟩ := bind_ok_elim h
  exact dget_isSome_of_req_ok h1

theorem attachment_ok_required (d : PyDict) (v : Attachment)
    (h : Attachment.from_dict (.jobj d) = .ok v) :
    (dget d "type").isSome = true := by
  unfold Attachment.from_dict at h
  simp only [show asObj (Json.jobj d) = Except.ok d from rfl, ok_bind] at h
  obtain ⟨t, h1, h⟩ := bind_ok_elim h
  exact dget_isSome_of_req_ok h1

theorem location_ok_required (d : PyDict) (v : Attachment)
    (h : LocationAttachment.from_dict (.jobj d) = .ok v) :
    (dget d "type").isSome = true := by
  unfold LocationAttachment.from_dict at h
  simp only [show asObj (Json.jobj d) = Except.ok d from rfl, ok_bind] at h
  obtain ⟨t, h1, h⟩ := bind_ok_elim h
  exact dget_isSome_of_req_ok h1

theorem messageStat_ok_required (d : PyDict) (v : MessageStat)
    (h : MessageStat.from_dict (.jobj d) = .ok v) :
    (dget d "views").isSome = true := by
  unfold MessageStat.from_dict at h
  simp only [show asObj (Json.jobj d) = Except.ok d from rfl, ok_bind] at h
  obtain ⟨w, h1, h⟩ := bind_ok_elim h
  exact dget_isSome_of_req_ok h1

theorem messageBody_ok_required (d : PyDict) (v : MessageBody)
    (h : MessageBody.from_dict (.jobj d) = .ok v) :
    (dget d "mid").isSome = true ∧ (dget d "seq").isSome = true := by
  unfold MessageBody.from_dict at h
  simp only [show asObj (Json.jobj d) = Except.ok d from rfl, ok_bind] at h
  obtain ⟨elems, h1, h⟩ := bind_ok_elim h
  obtain ⟨atts, h2, h⟩ := bind_ok_elim h
  obtain ⟨mid, h3, h⟩ := bind_ok_elim h
  obtain ⟨seq, h4, h⟩ := bind_ok_elim h
  exact ⟨dget_isSome_of_req_ok h3, dget_isSome_of_req_ok h4⟩

theorem linkedMessage_ok_required (d : PyDict) (v : LinkedMessage)
    (h : LinkedMessage.from_dict (.jobj d) = .ok v) :
    (dget d "type").isSome = true ∧ (dget d "chat_id").isSome = true ∧
    (dget d "message").isSome = true := by
  unfold LinkedMessage.from_dict at h
  simp only [show asObj (Json.jobj d) = Except.ok d from rfl, ok_bind] at h
  repeat' first
  | (obtain ⟨_, _, h⟩ := bind_ok_elim h)
  | split at h
  all_goals
    exact ⟨dget_isSome_of_req_ok (by assumption),
      dget_isSome_of_req_ok (by assumption), dget_isSome_of_req_ok (by assumption)⟩

theorem message_ok_required (d : PyDict) (v : Message)
    (h : Message.from_dict (.jobj d) = .ok v) :
    (dget d "recipient").isSome = true ∧ (dget d "body").isSome = true ∧
    (dget d "timestamp").isSome = true := by
  unfold Message.from_dict at h
  simp only [show asObj (Json.jobj d) = Except.ok d from rfl, ok_bind] at h
  repeat' first
  | (obtain ⟨_, _, h⟩ := bind_ok_elim h)
  | split at h
  all_goals
    exact ⟨dget_isSome_of_req_ok (by assumption),
      dget_isSome_of_req_ok (by assumption), dget_isSome_of_req_ok (by assumption)⟩

theorem chat_ok_required (d : PyDict) (v : Chat)
    (h : Chat.from_dict (.jobj d) = .ok v) :
    (dget d "chat_id").isSome = true ∧ (dget d "type").isSome = true ∧
    (dget d "status").isSome = true ∧ (dget d "last_event_time").isSome = true ∧
    (dget d "participants_count").isSome = true ∧
    (dget d "is_public").isSome = true := by
  unfold Chat.from_dict at h
  simp only [show asObj (Json.jobj d) = Except.ok d from rfl, ok_bind] at h
  repeat' first
  | (obtain ⟨_, _, h⟩ := bind_ok_elim h)
  | split at h
  all_goals
    exact ⟨dget_isSome_of_req_ok (by assumption),
      dget_isSome_of_req_ok (by assumption), dget_isSome_of_req_ok (by assumption),
      dget_isSome_of_req_ok (by assumption), dget_isSome_of_req_ok (by assumption),
      dget_isSome_of_req_ok (by assumption)⟩

theorem chatAdmin_ok_required (d : PyDict) (v : ChatAdmin)
    (h : ChatAdmin.from_dict (.jobj d) = .ok v) :
    (dget d "user_id").isSome = true := by
  unfold ChatAdmin.from_dict at h
  simp only [show asObj (Json.jobj d) = Except.ok d from rfl, ok_bind] at h
  obtain ⟨uid, h1, h⟩ := bind_ok_elim h
  exact dget_isSome_of_req_ok h1

theorem update_ok_required (d : PyDict) (v : Update)
    (h : Update.from_dict (.jobj d) = .ok v) :
    (dget d "update_type").isSome = true ∧ (dget d "timestamp").isSome = true := by
  unfold Update.from_dict at h
  simp only [show asObj (Json.jobj d) = Except.ok d from rfl, ok_bind] at h
  obtain ⟨ut, h1, h⟩ := bind_ok_elim h
  obtain ⟨ts, h2, h⟩ := bind_ok_elim h
  exact ⟨dget_isSome_of_req_ok h1, dget_isSome_of_req_ok h2⟩

/-- C4 (amended): decoding fails when a required field is missing, never
silently defaulting it — for every decoder, success implies every required
field is present — and the failure is a `KeyError` naming the first missing
required field in evaluation order (proved for every required field of every
decoder, under the evaluation-order preconditions: earlier required fields
present, earlier optional decode steps trivial; and concretely at the empty
mapping for all thirteen decoders).  The error does not name the entity.
Present fields are not shape-checked: scalar fields of any shape are stored
as-is, while fields decoded as nested entities raise on a non-mapping value
when required (e.g. `recipient`) and are coerced to `None` when optional
(e.g. `sender`).  The one exception to the no-default rule is
`LocationAttachment`, which substitutes `0.0` for coordinates missing from
its payload instead of failing. -/
theorem C4_required_field_errors_amended :
    (∀ d : PyDict, dget d "user_id" = none →
      User.from_dict (.jobj d) = .error (.keyError "user_id")) ∧
    (∀ (d : PyDict) (v1 : Json), dget d "user_id" = some v1 →
      dget d "first_name" = none →
      User.from_dict (.jobj d) = .error (.keyError "first_name")) ∧
    (∀ (d : PyDict) (v1 v2 : Json), dget d "user_id" = some v1 →
      dget d "first_name" = some v2 → dget d "is_bot" = none →
      User.from_dict (.jobj d) = .error (.keyError "is_bot")) ∧
    (∀ (d : PyDict) (v1 v2 v3 : Json), dget d "user_id" = some v1 →
      dget d "first_name" = some v2 → dget d "is_bot" = some v3 →
      dget d "last_activity_time" = none →
      User.from_dict (.jobj d) = .error (.keyError "last_activity_time")) ∧
    (∀ (d : PyDict) (e : DecodeErr), User.from_dict (.jobj d) = .error e →
      UserWithPhoto.from_dict (.jobj d) = .error e) ∧
    (∀ (d : PyDict) (e : DecodeErr), UserWithPhoto.from_dict (.jobj d) = .error e →
      ChatMember.from_dict (.jobj d) = .error e) ∧
    (∀ (d : PyDict) (b : UserWithPhoto), UserWithPhoto.from_dict (.jobj d) = .ok b →
      dget d "last_access_time" = none →
      ChatMember.from_dict (.jobj d) = .error (.keyError "last_access_time")) ∧
    (∀ (d : PyDict) (b : UserWithPhoto) (v1 : Json),
      UserWithPhoto.from_dict (.jobj d) = .ok b →
      dget d "last_access_time" = some v1 → dget d "is_owner" = none →
      ChatMember.from_dict (.jobj d) = .error (.keyError "is_owner")) ∧
    (∀ (d : PyDict) (b : UserWithPhoto) (v1 v2 : Json),
      UserWithPhoto.from_dict (.jobj d) = .ok b →
      dget d "last_access_time" = some v1 → dget d "is_owner" = some v2 →
      dget d "is_admin" = none →
      ChatMember.from_dict (.jobj d) = .error (.keyError "is_admin")) ∧
    (∀ (d : PyDict) (b : UserWithPhoto) (v1 v2 v3 : Json),
      UserWithPhoto.from_dict (.jobj d) = .ok b →
      dget d "last_access_time" = some v1 → dget d "is_owner" = some v2 →
      dget d "is_admin" = some v3 → dget d "join_time" = none →
      ChatMember.from_dict (.jobj d) = .error (.keyError "join_time")) ∧
    (∀ d : PyDict, dget d "chat_type" = none →
      Recipient.from_dict (.jobj d) = .error (.keyError "chat_type")) ∧
    (∀ d : PyDict, dget d "type" = none →
      Attachment.from_dict (.jobj d) = .error (.keyError "type")) ∧
    (∀ d : PyDict, dget d "type" = none →
      LocationAttachment.from_dict (.jobj d) = .error (.keyError "type")) ∧
    (∀ d : PyDict, dget d "views" = none →
      MessageStat.from_dict (.jobj d) = .error (.keyError "views")) ∧
    (∀ d : PyDict, dget d "attachments" = none → dget d "mid" = none →
      MessageBody.from_dict (.jobj d) = .error (.keyError "mid")) ∧
    (∀ (d : PyDict) (v1 : Json), dget d "attachments" = none →
      dget d "mid" = some v1 → dget d "seq" = none →
      MessageBody.from_dict (.jobj d) = .error (.keyError "seq")) ∧
    (∀ d : PyDict, dget d "sender" = none → dget d "type" = none →
      LinkedMessage.from_dict (.jobj d) = .error (.keyError "type")) ∧
    (∀ (d : PyDict) (v1 : Json), dget d "sender" = none → dget d "type" = some v1 →
      dget d "chat_id" = none →
      LinkedMessage.from_dict (.jobj d) = .error (.keyError "chat_id")) ∧
    (∀ (d : PyDict) (v1 v2 : Json), dget d "sender" = none →
      dget d "type" = some v1 → dget d "chat_id" = some v2 →
      dget d "message" = none →
      LinkedMessage.from_dict (.jobj d) = .error (.keyError "message")) ∧
    (∀ d : PyDict, dget d "sender" = none → dget d "link" = none →
      dget d "stat" = none → dget d "recipient" = none →
      Message.from_dict (.jobj d) = .error (.keyError "recipient")) ∧
    (∀ (d : PyDict) (rv : Json) (rc : Recipient), dget d "sender" = none →
      dget d "link" = none → dget d "stat" = none →
      dget d "recipient" = some rv → Recipient.from_dict rv = .ok rc →
      dget d "body" = none →
      Message.from_dict (.jobj d) = .error (.keyError "body")) ∧
    (∀ (d : PyDict) (rv : Json) (rc : Recipient) (bv : Json) (bb : MessageBody),
      dget d "sender" = none → dget d "link" = none → dget d "stat" = none →
      dget d "recipient" = some rv → Recipient.from_dict rv = .ok rc →
      dget d "body" = some bv → MessageBody.from_dict bv = .ok bb →
      dget d "timestamp" = none →
      Message.from_dict (.jobj d) = .error (.keyError "timestamp")) ∧
    (∀ d : PyDict, dget d "participants" = none →
      dget d "dialog_with_user" = none → dget d "pinned_message" = none →
      dget d "chat_id" = none →
      Chat.from_dict (.jobj d) = .error (.keyError "chat_id")) ∧
    (∀ (d : PyDict) (v1 : Json), dget d "participants" = none →
      dget d "dialog_with_user" = none → dget d "pinned_message" = none →
      dget d "chat_id" = some v1 → dget d "type" = none →
      Chat.from_dict (.jobj d) = .error (.keyError "type")) ∧
    (∀ (d : PyDict) (v1 v2 : Json), dget d "participants" = none →
      dget d "dialog_with_user" = none → dget d "pinned_message" = none →
      dget d "chat_id" = some v1 → dget d "type" = some v2 →
      dget d "status" = none →
      Chat.from_dict (.jobj d) = .error (.keyError "status")) ∧
    (∀ (d : PyDict) (v1 v2 v3 : Json), dget d "participants" = none →
      dget d "dialog_with_user" = none → dget d "pinned_message" = none →
      dget d "chat_id" = some v1 → dget d "type" = some v2 →
      dget d "status" = some v3 → dget d "last_event_time" = none →
      Chat.from_dict (.jobj d) = .error (.keyError "last_event_time")) ∧
    (∀ (d : PyDict) (v1 v2 v3 v4 : Json), dget d "participants" = none →
      dget d "dialog_with_user" = none → dget d "pinned_message" = none →
      dget d "chat_id" = some v1 → dget d "type" = some v2 →
      dget d "status" = some v3 → dget d "last_event_time" = some v4 →
      dget d "participants_count" = none →
      Chat.from_dict (.jobj d) = .error (.keyError "participants_count")) ∧
    (∀ (d : PyDict) (v1 v2 v3 v4 v5 : Json), dget d "participants" = none →
      dget d "dialog_with_user" = none → dget d "pinned_message" = none →
      dget d "chat_id" = some v1 → dget d "type" = some v2 →
      dget d "status" = some v3 → dget d "last_event_time" = some v4 →
      dget d "participants_count" = some v5 → dget d "is_public" = none →
      Chat.from_dict (.jobj d) = .error (.keyError "is_public")) ∧
    (∀ d : PyDict, dget d "user_id" = none →
      ChatAdmin.from_dict (.jobj d) = .error (.keyError "user_id")) ∧
    (∀ d : PyDict, dget d "update_type" = none →
      Update.from_dict (.jobj d) = .error (.keyError "update_type")) ∧
    (∀ (d : PyDict) (v1 : Json), dget d "update_type" = some v1 →
      dget d "timestamp" = none →
      Update.from_dict (.jobj d) = .error (.keyError "timestamp")) ∧
    (∀ (d : PyDict) (t : Json), dget d "type" = some t → dget d "payload" = none →
      LocationAttachment.from_dict (.jobj d) =
        .ok (.location t (some []) (.jnum 0 1) (.jnum 0 1))) ∧
    (∀ (d : PyDict) (v : User), User.from_dict (.jobj d) = .ok v →
      (dget d "user_id").isSome = true ∧ (dget d "first_name").isSome = true ∧
      (dget d "is_bot").isSome = true ∧
      (dget d "last_activity_time").isSome = true) ∧
    (∀ (d : PyDict) (v : UserWithPhoto), UserWithPhoto.from_dict (.jobj d) = .ok v →
      (dget d "user_id").isSome = true ∧ (dget d "first_name").isSome = true ∧
      (dget d "is_bot").isSome = true ∧
      (dget d "last_activity_time").isSome = true) ∧
    (∀ (d : PyDict) (v : ChatMember), ChatMember.from_dict (.jobj d) = .ok v →
      ((dget d "user_id").isSome = true ∧ (dget d "first_name").isSome = true ∧
       (dget d "is_bot").isSome = true ∧
       (dget d "last_activity_time").isSome = true) ∧
      (dget d "last_access_time").isSome = true ∧
      (dget d "is_owner").isSome = true ∧ (dget d "is_admin").isSome = true ∧
      (dget d "join_time").isSome = true) ∧
    (∀ (d : PyDict) (v : Recipient), Recipient.from_dict (.jobj d) = .ok v →
      (dget d "chat_type").isSome = true) ∧
    (∀ (d : PyDict) (v : Attachment), Attachment.from_dict (.jobj d) = .ok v →
      (dget d "type").isSome = true) ∧
    (∀ (d : PyDict) (v : Attachment), LocationAttachment.from_dict (.jobj d) = .ok v →
      (dget d "type").isSome = true) ∧
    (∀ (d : PyDict) (v : MessageStat), MessageStat.from_dict (.jobj d) = .ok v →
      (dget d "views").isSome = true) ∧
    (∀ (d : PyDict) (v : MessageBody), MessageBody.from_dict (.jobj d) = .ok v →
      (dget d "mid").isSome = true ∧ (dget d "seq").isSome = true) ∧
    (∀ (d : PyDict) (v : LinkedMessage), LinkedMessage.from_dict (.jobj d) = .ok v →
      (dget d "type").isSome = true ∧ (dget d "chat_id").isSome = true ∧
      (dget d "message").isSome = true) ∧
    (∀ (d : PyDict) (v : Message), Message.from_dict (.jobj d) = .ok v →
      (dget d "recipient").isSome = true ∧ (dget d "body").isSome = true ∧
      (dget d "timestamp").isSome = true) ∧
    (∀ (d : PyDict) (v : Chat), Chat.from_dict (.jobj d) = .ok v →
      (dget d "chat_id").isSome = true ∧ (dget d "type").isSome = true ∧
      (dget d "status").isSome = true ∧ (dget d "last_event_time").isSome = true ∧
      (dget d "participants_count").isSome = true ∧
      (dget d "is_public").isSome = true) ∧
    (∀ (d : PyDict) (v : ChatAdmin), ChatAdmin.from_dict (.jobj d) = .ok v →
      (dget d "user_id").isSome = true) ∧
    (∀ (d : PyDict) (v : Update), Update.from_dict (.jobj d) = .ok v →
      (dget d "update_type").isSome = true ∧ (dget d "timestamp").isSome = true) ∧
    (User.from_dict (.jobj []) = .error (.keyError "user_id") ∧
     UserWithPhoto.from_dict (.jobj []) = .error (.keyError "user_id") ∧
     ChatMember.from_dict (.jobj []) = .error (.keyError "user_id") ∧
     Recipient.from_dict (.jobj []) = .error (.keyError "chat_type") ∧
     Attachment.from_dict (.jobj []) = .error (.keyError "type") ∧
     LocationAttachment.from_dict (.jobj []) = .error (.keyError "type") ∧
     MessageStat.from_dict (.jobj []) = .error (.keyError "views") ∧
     MessageBody.from_dict (.jobj []) = .error (.keyError "mid") ∧
     LinkedMessage.from_dict (.jobj []) = .error (.keyError "type") ∧
     Message.from_dict (.jobj []) = .error (.keyError "recipient") ∧
     Chat.from_dict (.jobj []) = .error (.keyError "chat_id") ∧
     ChatAdmin.from_dict (.jobj []) = .error (.keyError "user_id") ∧
     Update.from_dict (.jobj []) = .error (.keyError "update_type")) ∧
    (∀ v : Json, User.from_dict (.jobj [("user_id", v), ("first_name", .jnull),
        ("is_bot", .jnull), ("last_activity_time", .jnull)]) =
      .ok ⟨v, .jnull, .jnull, .jnull, .jnull, .jnull, .jnull⟩) ∧
    (Message.from_dict (.jobj [("recipient", .jnum 1 1)]) =
      .error (.attributeError "value is not a mapping")) ∧
    (Message.from_dict (.jobj [("sender", .jstr "bogus"),
        ("recipient", .jobj [("chat_type", .jstr "chat")]),
        ("body", .jobj [("mid", .jstr "m"), ("seq", .jnum 1 1)]),
        ("timestamp", .jnum 0 1)]) =
      .ok ⟨⟨.jnull, .jstr "chat", .jnull⟩, ⟨.jstr "m", .jnum 1 1, .jnull, [], .jnull⟩,
           .jnum 0 1, none, none, none, .jnull⟩) := by
  refine ⟨?_, ?_, ?_, ?_, ?_, ?_, ?_, ?_, ?_, ?_, ?_, ?_, ?_, ?_, ?_, ?_, ?_, ?_,
    ?_, ?_, ?_, ?_, ?_, ?_, ?_, ?_, ?_, ?_, ?_, ?_, ?_, ?_,
    user_ok_required, userWithPhoto_ok_required, chatMember_ok_required,
    recipient_ok_required, attachment_ok_required, location_ok_required,
    messageStat_ok_required, messageBody_ok_required, linkedMessage_ok_required,
    message_ok_required, chat_ok_required, chatAdmin_ok_required,
    update_ok_required, ?_, fun v => rfl, by decide, by decide⟩
  · intro d h
    simp [User.from_dict, asObj, req, h, bind, Except.bind]
  · intro d v1 h1 h2
    simp [User.from_dict, asObj, req, h1, h2, bind, Except.bind]
  · intro d v1 v2 h1 h2 h3
    simp [User.from_dict, asObj, req, h1, h2, h3, bind, Except.bind]
  · intro d v1 v2 v3 h1 h2 h3 h4
    simp [User.from_dict, asObj, req, h1, h2, h3, h4, bind, Except.bind]
  · intro d e h
    simp [UserWithPhoto.from_dict, h, bind, Except.bind]
  · intro d e h
    simp [ChatMember.from_dict, h, bind, Except.bind]
  · intro d b hb h
    simp [ChatMember.from_dict, hb, asObj, req, h, bind, Except.bind]
  · intro d b v1 hb h1 h2
    simp [ChatMember.from_dict, hb, asObj, req, h1, h2, bind, Except.bind]
  · intro d b v1 v2 hb h1 h2 h3
    simp [ChatMember.from_dict, hb, asObj, req, h1, h2, h3, bind, Except.bind]
  · intro d b v1 v2 v3 hb h1 h2 h3 h4
    simp [ChatMember.from_dict, hb, asObj, req, h1, h2, h3, h4, bind, Except.bind]
  · intro d h
    simp [Recipient.from_dict, asObj, req, h, bind, Except.bind]
  · intro d h
    simp [Attachment.from_dict, asObj, req, h, bind, Except.bind]
  · intro d h
    simp [LocationAttachment.from_dict, asObj, req, h, bind, Except.bind]
  · intro d h
    simp [MessageStat.from_dict, asObj, req, h, bind, Except.bind]
  · intro d h1 h2
    simp [MessageBody.from_dict, asObj, optGet, dgetD, h1, pyTruthy, pyIter,
      decodeList, req, h2, bind, Except.bind]
  · intro d v1 h1 h2 h3
    simp [MessageBody.from_dict, asObj, optGet, dgetD, h1, pyTruthy, pyIter,
      decodeList, req, h2, h3, bind, Except.bind]
  · intro d h1 h2
    simp [LinkedMessage.from_dict, asObj, optGet, dgetD, h1, req, h2, bind,
      Except.bind, pure, Except.pure]
  · intro d v1 h1 h2 h3
    simp [LinkedMessage.from_dict, asObj, optGet, dgetD, h1, req, h2, h3, bind,
      Except.bind, pure, Except.pure]
  · intro d v1 v2 h1 h2 h3 h4
    simp [LinkedMessage.from_dict, asObj, optGet, dgetD, h1, req, h2, h3, h4,
      bind, Except.bind, pure, Except.pure]
  · intro d h1 h2 h3 h4
    simp [Message.from_dict, asObj, optGet, dgetD, h1, h2, h3, req, h4, bind,
      Except.bind, pure, Except.pure]
  · intro d rv rc h1 h2 h3 h4 h5 h6
    simp [Message.from_dict, asObj, optGet, dgetD, h1, h2, h3, req, h4, h5, h6,
      bind, Except.bind, pure, Except.pure]
  · intro d rv rc bv bb h1 h2 h3 h4 h5 h6 h7 h8
    simp [Message.from_dict, asObj, optGet, dgetD, h1, h2, h3, req, h4, h5, h6,
      h7, h8, bind, Except.bind, pure, Except.pure]
  · intro d h1 h2 h3 h4
    simp [Chat.from_dict, asObj, optGet, dgetD, h1, h2, h3, req, h4, bind,
      Except.bind, pure, Except.pure]
  · intro d v1 h1 h2 h3 h4 h5
    simp [Chat.from_dict, asObj, optGet, dgetD, h1, h2, h3, req, h4, h5, bind,
      Except.bind, pure, Except.pure]
  · intro d v1 v2 h1 h2 h3 h4 h5 h6
    simp [Chat.from_dict, asObj, optGet, dgetD, h1, h2, h3, req, h4, h5, h6,
      bind, Except.bind, pure, Except.pure]
  · intro d v1 v2 v3 h1 h2 h3 h4 h5 h6 h7
    simp [Chat.from_dict, asObj, optGet, dgetD, h1, h2, h3, req, h4, h5, h6, h7,
      bind, Except.bind, pure, Except.pure]
  · intro d v1 v2 v3 v4 h1 h2 h3 h4 h5 h6 h7 h8
    simp [Chat.from_dict, asObj, optGet, dgetD, h1, h2, h3, req, h4, h5, h6, h7,
      h8, bind, Except.bind, pure, Except.pure]
  · intro d v1 v2 v3 v4 v5 h1 h2 h3 h4 h5 h6 h7 h8 h9
    simp [Chat.from_dict, asObj, optGet, dgetD, h1, h2, h3, req, h4, h5, h6, h7,
      h8, h9, bind, Except.bind, pure, Except.pure]
  · intro d h
    simp [ChatAdmin.from_dict, asObj, req, h, bind, Except.bind]
  · intro d h
    simp [Update.from_dict, asObj, req, h, bind, Except.bind]
  · intro d v1 h1 h2
    simp [Update.from_dict, asObj, req, h1, h2, bind, Except.bind]
  · intro d t h1 h2
    simp [LocationAttachment.from_dict, asObj, optGet, dgetD, dget, req, h1, h2,
      pyTruthy, bind, Except.bind, pure, Except.pure]
  · exact ⟨by decide, by decide, by decide, by decide, by decide, by decide,
      by decide, by decide, by decide, by decide, by decide, by decide, by decide⟩

/-- C4, witness: the empty mapping raises `KeyError("user_id")`, and with
`user_id` present the next missing required field is named. -/
theorem C4_required_field_errors_witness :
    User.from_dict (.jobj []) = .error (.keyError "user_id") ∧
    User.from_dict (.jobj [("user_id", .jnum 1 1)]) =
      .error (.keyError "first_name") := by
  obtain ⟨h1, h2, -⟩ := C4_required_field_errors_amended
  exact ⟨h1 [] rfl, h2 [("user_id", .jnum 1 1)] (.jnum 1 1) rfl rfl⟩
